import Mathlib

/-!
Verification of the light-play RAOP/M4A client against its specification.

The development shallowly embeds the relevant C sources:
  * `src/m4afile.c`    - the M4A (MPEG-4 audio) container parser and sample reader,
  * `src/raopclient.c` - audio framing and volume handling of the RAOP client,
  * `src/rtspclient.c` - the RTSP session engine (CSeq management, digest
    authentication, the 401 retry logic of `rtspClientSendCommand`).

C `FILE *` streams over a regular file are modelled by `MStream` (a byte list,
a read position and the EOF/error indicators); `uint32_t` arithmetic is
modelled on `Nat` with explicit reduction modulo 2^32 (`u32`, `usub32`).
The bundled MD5 routine is an external collaborator of the sources, so the
digest computation is parameterised by an abstract `md5` function.
-/

namespace LightPlay

/-- Reduction modulo 2^32, modelling C `uint32_t` arithmetic results. -/
def u32 (n : Nat) : Nat := n % 4294967296

/-- C `uint32_t` subtraction `a - b` (arguments first truncated to 32 bits). -/
def usub32 (a b : Nat) : Nat := (u32 a + 4294967296 - u32 b) % 4294967296

/-! ## C stream model (`FILE *` on a regular file)

`bytes` is the whole file, `pos` the current offset.  `eofFlag`/`errFlag`
are the stream's end-of-file and error indicators; reads fail immediately
while an indicator is set, and `fseek` clears the end-of-file indicator.
`fseek`/`ftell` never fail on a regular file with the non-negative offsets
used by the sources, so they are modelled as total. -/
structure MStream where
  bytes : List Nat
  pos : Nat
  eofFlag : Bool
  errFlag : Bool
deriving Repr, DecidableEq

/-- C `(uint32_t)fgetc(stream)`: yields the next byte, or 0xffffffff
(the `uint32_t` cast of `EOF`) once the end of file is reached or an
indicator is already set. -/
def mstreamGetc (s : MStream) : Nat × MStream :=
  if s.eofFlag || s.errFlag then (4294967295, s)
  else if s.pos < s.bytes.length then (s.bytes.getD s.pos 0, { s with pos := s.pos + 1 })
  else (4294967295, { s with eofFlag := true })

/-- C `fseek(stream, n, SEEK_CUR)`: advances the position and clears the
end-of-file indicator (C11 7.21.9.2). -/
def mstreamSeekCur (s : MStream) (n : Nat) : MStream :=
  { s with pos := s.pos + n, eofFlag := false }

/-- C `fseek(stream, n, SEEK_SET)`. -/
def mstreamSeekSet (s : MStream) (n : Nat) : MStream :=
  { s with pos := n, eofFlag := false }

/-- C `ftell(stream)`. -/
def mstreamTell (s : MStream) : Nat := s.pos

/-- C `fread(buf, 1, n, stream)`: reads as many of the `n` requested bytes
as are available, advancing the position; a short read sets the end-of-file
indicator.  Returns the bytes actually read. -/
def mstreamRead (s : MStream) (n : Nat) : List Nat × MStream :=
  if n = 0 then ([], s)
  else if s.eofFlag || s.errFlag then ([], s)
  else
    let k := min n (s.bytes.length - s.pos)
    ((s.bytes.drop s.pos).take k,
     { s with pos := s.pos + k, eofFlag := decide (k < n) })

/-- `read4ByteUnsignedInt32` from m4afile.c: four `fgetc` calls combined with
`result <<= 8; result |= (uint32_t)fgetc(stream)` in `uint32_t` arithmetic. -/
def read4ByteUnsignedInt32 (s : MStream) : Nat × MStream :=
  let p1 := mstreamGetc s
  let p2 := mstreamGetc p1.2
  let p3 := mstreamGetc p2.2
  let p4 := mstreamGetc p3.2
  let r2 := Nat.lor (u32 (p1.1 * 256)) p2.1
  let r3 := Nat.lor (u32 (r2 * 256)) p3.1
  let r4 := Nat.lor (u32 (r3 * 256)) p4.1
  (r4, p4.2)

/-- `didReadErrorOccur` from m4afile.c: `feof(stream) || ferror(stream)`. -/
def didReadErrorOccur (s : MStream) : Bool := s.eofFlag || s.errFlag

/-- Big-endian 4-byte encoding of a 32-bit value, for building test files. -/
def encode4 (n : Nat) : List Nat :=
  [n / 16777216 % 256, n / 65536 % 256, n / 256 % 256, n % 256]

/-! ## M4A file model (m4afile.c) -/

/-- `M4AFileStatus` from m4afile.c. -/
inductive M4AFileStatus where
  | ok
  | error
  | parsedWithWarnings
deriving Repr, DecidableEq

/-- `M4AFileEncoding` from m4afile.h. -/
inductive M4AFileEncoding where
  | unknown
  | alac
  | aac
deriving Repr, DecidableEq

/-- `struct M4AFileStruct` from m4afile.c.  The C metadata-handler function
pointer is modelled by the flag `hasMetadataHandler` (the claims never
inspect the metadata values delivered to the handler, only whether the
parser reads or skips the metadata payload). -/
structure M4AFile where
  dataStream : MStream
  sizeStream : MStream
  dataOffset : Nat
  sizeOffset : Nat
  totalSize : Nat
  samplesCount : Nat
  totalSampleSize : Nat
  largestSampleSize : Nat
  timescale : Nat
  duration : Nat
  encoding : M4AFileEncoding
  status : M4AFileStatus
  hasMetadataHandler : Bool
deriving Repr, DecidableEq

/-- `m4aFileInitialize` combined with the stream setup of `m4aFileOpen`:
both streams are opened on the same file, positioned at offset 0.
`samplesCount` and `totalSampleSize` are left uninitialized by the C code
(`m4aFileInitialize` never assigns them after `malloc`); the model picks 0,
which is also the value the parsing code tests against. -/
def m4aFileOpenOn (fileBytes : List Nat) (hasHandler : Bool) : M4AFile :=
  { dataStream := ⟨fileBytes, 0, false, false⟩
    sizeStream := ⟨fileBytes, 0, false, false⟩
    dataOffset := 4294967295
    sizeOffset := 4294967295
    totalSize := fileBytes.length
    samplesCount := 0
    totalSampleSize := 0
    largestSampleSize := 0
    timescale := 0
    duration := 0
    encoding := M4AFileEncoding.unknown
    status := M4AFileStatus.ok
    hasMetadataHandler := hasHandler }

/-- `m4aFileSkipBytes`: `fseek(dataStream, byteCount, SEEK_CUR)`, which never
fails on the modelled regular file, so the result is always `true`. -/
def m4aFileSkipBytes (m : M4AFile) (byteCount : Nat) : Bool × M4AFile :=
  (true, { m with dataStream := mstreamSeekCur m.dataStream byteCount })

/-- `m4aFileReadUnsignedLong`: on EOF or stream error the status becomes
`M4AFILE_ERROR` and the call fails. -/
def m4aFileReadUnsignedLong (m : M4AFile) : Bool × Nat × M4AFile :=
  let p := read4ByteUnsignedInt32 m.dataStream
  if p.2.eofFlag then (false, p.1, { m with dataStream := p.2, status := M4AFileStatus.error })
  else if p.2.errFlag then (false, p.1, { m with dataStream := p.2, status := M4AFileStatus.error })
  else (true, p.1, { m with dataStream := p.2 })

/-- `m4aFileReadData`: `fread` of `dataSize` bytes; a short read sets status
`M4AFILE_ERROR` and fails. -/
def m4aFileReadData (m : M4AFile) (dataSize : Nat) : Bool × List Nat × M4AFile :=
  let p := mstreamRead m.dataStream dataSize
  if p.1.length ≠ dataSize then
    (false, p.1, { m with dataStream := p.2, status := M4AFileStatus.error })
  else (true, p.1, { m with dataStream := p.2 })

/-- `m4aFileSetTimeValue`: only meaningful values (non-zero, not 0xffffffff)
are considered; a second, different value leaves the stored field unchanged
and records `M4AFILE_PARSED_WITH_WARNINGS` (the C log line claims the latest
value is used, but the assignment is only in the `*timeField == 0` branch). -/
def m4aFileSetTimeValue (current timeValue : Nat) (status : M4AFileStatus) :
    Nat × M4AFileStatus :=
  if timeValue ≠ 0 ∧ timeValue ≠ 4294967295 then
    if current ≠ timeValue then
      if current = 0 then (timeValue, status)
      else (current, M4AFileStatus.parsedWithWarnings)
    else (current, status)
  else (current, status)

/-- `m4aFileSetTimescale`. -/
def m4aFileSetTimescale (m : M4AFile) (timescale : Nat) : M4AFile :=
  let p := m4aFileSetTimeValue m.timescale timescale m.status
  { m with timescale := p.1, status := p.2 }

/-- `m4aFileSetDuration`. -/
def m4aFileSetDuration (m : M4AFile) (duration : Nat) : M4AFile :=
  let p := m4aFileSetTimeValue m.duration duration m.status
  { m with duration := p.1, status := p.2 }

/-- `setTotalSampleSize`: a second, different value keeps the smaller one
(logged as a warning without changing the parse status). -/
def setTotalSampleSize (m : M4AFile) (totalSampleSize : Nat) : M4AFile :=
  if m.totalSampleSize = 0 then { m with totalSampleSize := totalSampleSize }
  else if m.totalSampleSize ≠ totalSampleSize then
    (if totalSampleSize < m.totalSampleSize then { m with totalSampleSize := totalSampleSize }
     else m)
  else m

/-- `m4aFileSetDataOffset` via `m4aFileSetOffsetValue`: stores the current
`ftell` of the data stream (as `uint32_t`); `ferror` cannot fire in the
model, so the call always succeeds. -/
def m4aFileSetDataOffset (m : M4AFile) : Bool × M4AFile :=
  (true, { m with dataOffset := u32 (mstreamTell m.dataStream) })

/-- `m4aFileSetSizeOffset` via `m4aFileSetOffsetValue`. -/
def m4aFileSetSizeOffset (m : M4AFile) : Bool × M4AFile :=
  (true, { m with sizeOffset := u32 (mstreamTell m.dataStream) })

/-- `m4aFileCheckVersionAndFlags`: reads the 4-byte version/flags word,
records a warning for an unexpected version and for flag bits that violate
the expected on/off masks.  Returns `(ok, version, flags, file)`. -/
def m4aFileCheckVersionAndFlags (m : M4AFile) (expectedVersion : Nat)
    (expectedFlagBitsOn expectedFlagBitsOff : Nat) : Bool × Nat × Nat × M4AFile :=
  let p := m4aFileReadUnsignedLong m
  if !p.1 then (false, 0, 0, p.2.2)
  else
    let version := p.2.1 / 16777216 % 256
    let m1 := if version ≠ expectedVersion then
        { p.2.2 with status := M4AFileStatus.parsedWithWarnings } else p.2.2
    let flags := p.2.1 % 16777216
    let m2 := if Nat.land flags expectedFlagBitsOn ≠ expectedFlagBitsOn ∨
        Nat.land flags expectedFlagBitsOff ≠ 0 then
        { m1 with status := M4AFileStatus.parsedWithWarnings } else m1
    (true, version, flags, m2)

/-- `m4aFileReadDuration`: for a version-1 box the 64-bit duration is read
as two 32-bit halves; an upper half that is neither all zeros nor all ones
(or all ones not followed by all ones) makes the call fail - note that this
failure path does not touch `status`.  Returns `(ok, duration, file)`. -/
def m4aFileReadDuration (m : M4AFile) (boxVersion : Nat) : Bool × Nat × M4AFile :=
  if boxVersion = 1 then
    let p := m4aFileReadUnsignedLong m
    if !p.1 then (false, 0, p.2.2)
    else
      let hasUnknownDuration := p.2.1 = 4294967295
      if p.2.1 ≠ 4294967295 ∧ p.2.1 ≠ 0 then (false, 0, p.2.2)
      else
        let q := m4aFileReadUnsignedLong p.2.2
        if !q.1 then (false, 0, q.2.2)
        else if q.2.1 ≠ 4294967295 ∧ hasUnknownDuration then (false, 0, q.2.2)
        else (true, q.2.1, m4aFileSetDuration q.2.2 q.2.1)
  else
    let q := m4aFileReadUnsignedLong m
    if !q.1 then (false, 0, q.2.2)
    else (true, q.2.1, m4aFileSetDuration q.2.2 q.2.1)

/-- `m4aFileReadMetadataContent`: with a metadata handler registered the
payload is read (delivered to the handler), otherwise it is skipped. -/
def m4aFileReadMetadataContent (m : M4AFile) (dataSize : Nat) : Bool × M4AFile :=
  if m.hasMetadataHandler then
    let p := m4aFileReadData m dataSize
    (p.1, p.2.2)
  else
    m4aFileSkipBytes m dataSize

/-! ### Box handlers (the `mp4BoxParse<xyz>` functions)

Each handler receives the number of body bytes left in the box and returns
the number of bytes it reports as read (0 on failure), together with the
updated file state. -/

/-- `mp4BoxParseFileType`: requires major brand `M4A ` and version 0
(warning otherwise), then skips the compatible brands. -/
def mp4BoxParseFileType (m : M4AFile) (boxBytesLeft : Nat) : Nat × M4AFile :=
  let p := m4aFileReadUnsignedLong m
  if !p.1 then (0, p.2.2)
  else
    let q := m4aFileReadUnsignedLong p.2.2
    if !q.1 then (0, q.2.2)
    else
      let m1 := if p.2.1 ≠ 0x4D344120 ∨ q.2.1 ≠ 0 then
          { q.2.2 with status := M4AFileStatus.parsedWithWarnings } else q.2.2
      let s := m4aFileSkipBytes m1 (usub32 boxBytesLeft 8)
      (boxBytesLeft, s.2)

/-- `mp4BoxParseMediaHeader` (`mvhd`/`mdhd`): version/flags, bound check,
skip creation/modification times, read timescale and duration. -/
def mp4BoxParseMediaHeader (m : M4AFile) (boxBytesLeft : Nat) : Nat × M4AFile :=
  let c := m4aFileCheckVersionAndFlags m 0 0 0x00ffffff
  if !c.1 then (0, c.2.2.2)
  else
    let boxVersion := c.2.1
    let m1 := c.2.2.2
    if boxBytesLeft < (if boxVersion = 0 then 20 else 32) then
      (0, { m1 with status := M4AFileStatus.error })
    else
      let s := m4aFileSkipBytes m1 (if boxVersion = 0 then 8 else 16)
      let p := m4aFileReadUnsignedLong s.2
      if !p.1 then (0, p.2.2)
      else
        let m2 := m4aFileSetTimescale p.2.2 p.2.1
        let d := m4aFileReadDuration m2 boxVersion
        if !d.1 then (0, d.2.2)
        else
          let s2 := m4aFileSkipBytes d.2.2
            (usub32 boxBytesLeft (if boxVersion = 0 then 20 else 32))
          (boxBytesLeft, s2.2)

/-- `mp4BoxParseTrackHeader` (`tkhd`): like the media header, with the
undocumented duration field read before the documented one. -/
def mp4BoxParseTrackHeader (m : M4AFile) (boxBytesLeft : Nat) : Nat × M4AFile :=
  let c := m4aFileCheckVersionAndFlags m 0 0 0x00fffff8
  if !c.1 then (0, c.2.2.2)
  else
    let boxVersion := c.2.1
    let m1 := c.2.2.2
    if boxBytesLeft < (if boxVersion = 0 then 28 else 40) then
      (0, { m1 with status := M4AFileStatus.error })
    else
      let s := m4aFileSkipBytes m1 (if boxVersion = 0 then 16 else 24)
      let p := m4aFileReadUnsignedLong s.2
      if !p.1 then (0, p.2.2)
      else
        let m2 := m4aFileSetDuration p.2.2 p.2.1
        let d := m4aFileReadDuration m2 boxVersion
        if !d.1 then (0, d.2.2)
        else
          let s2 := m4aFileSkipBytes d.2.2
            (usub32 boxBytesLeft (if boxVersion = 0 then 28 else 40))
          (boxBytesLeft, s2.2)

/-- `mp4BoxSkip`: consume the whole body with a seek. -/
def mp4BoxSkip (m : M4AFile) (boxBytesLeft : Nat) : Nat × M4AFile :=
  let s := m4aFileSkipBytes m boxBytesLeft
  (boxBytesLeft, s.2)

/-- `mp4BoxParseSampleDescription` (`alac`/`mp4a`): records the encoding;
note the C code sets `M4AFILE_PARSED_WITH_WARNINGS` on the AAC branch even
without a conflict. -/
def mp4BoxParseSampleDescription (m : M4AFile) (boxType boxBytesLeft : Nat) :
    Nat × M4AFile :=
  let m1 :=
    if boxType = 0x616C6163 then
      if m.encoding ≠ M4AFileEncoding.unknown ∧ m.encoding ≠ M4AFileEncoding.alac then
        { m with status := M4AFileStatus.parsedWithWarnings }
      else { m with encoding := M4AFileEncoding.alac }
    else if boxType = 0x6D703461 then
      if m.encoding ≠ M4AFileEncoding.unknown ∧ m.encoding ≠ M4AFileEncoding.aac then
        { m with status := M4AFileStatus.parsedWithWarnings }
      else { m with encoding := M4AFileEncoding.aac,
                    status := M4AFileStatus.parsedWithWarnings }
    else m
  mp4BoxSkip m1 boxBytesLeft

/-- The `stts` summation loop: `totalDuration += frameCount * duration` in
`uint32_t` arithmetic. -/
def sampleTimesLoop : Nat → Nat → M4AFile → Bool × Nat × M4AFile
  | 0, totalDuration, m => (true, totalDuration, m)
  | k + 1, totalDuration, m =>
    let p := m4aFileReadUnsignedLong m
    if !p.1 then (false, totalDuration, p.2.2)
    else
      let q := m4aFileReadUnsignedLong p.2.2
      if !q.1 then (false, totalDuration, q.2.2)
      else sampleTimesLoop k (u32 (totalDuration + u32 (p.2.1 * q.2.1))) q.2.2

/-- `mp4BoxParseSampleTimes` (`stts`). -/
def mp4BoxParseSampleTimes (m : M4AFile) (boxBytesLeft : Nat) : Nat × M4AFile :=
  let c := m4aFileCheckVersionAndFlags m 0 0 0x00ffffff
  if !c.1 then (0, c.2.2.2)
  else
    let p := m4aFileReadUnsignedLong c.2.2.2
    if !p.1 then (0, p.2.2)
    else
      let numberOfTimings := p.2.1
      let l := sampleTimesLoop numberOfTimings 0 p.2.2
      if !l.1 then (0, l.2.2)
      else
        let m2 := m4aFileSetDuration l.2.2 l.2.1
        let _ := boxBytesLeft
        (u32 (8 + u32 (numberOfTimings * 8)), m2)

/-- The `stsz` size-reading loop, accumulating the (wrapping) total and the
largest sample size. -/
def sampleSizesLoop : Nat → Nat → Nat → M4AFile → Bool × Nat × Nat × M4AFile
  | 0, total, largest, m => (true, total, largest, m)
  | k + 1, total, largest, m =>
    let p := m4aFileReadUnsignedLong m
    if !p.1 then (false, total, largest, p.2.2)
    else sampleSizesLoop k (u32 (total + p.2.1)) (max largest p.2.1) p.2.2

/-- `mp4BoxParseSampleSizes` (`stsz`): records `samplesCount`, the size
table's file offset, the accumulated total and the largest sample size. -/
def mp4BoxParseSampleSizes (m : M4AFile) (boxBytesLeft : Nat) : Nat × M4AFile :=
  let c := m4aFileCheckVersionAndFlags m 0 0 0x00ffffff
  if !c.1 then (0, c.2.2.2)
  else
    let p := m4aFileReadUnsignedLong c.2.2.2
    if !p.1 then (0, p.2.2)
    else
      let m1 := if p.2.1 ≠ 0 then
          { p.2.2 with status := M4AFileStatus.parsedWithWarnings } else p.2.2
      let q := m4aFileReadUnsignedLong m1
      if !q.1 then (0, q.2.2)
      else
        let samplesCount := q.2.1
        let m2 := { q.2.2 with samplesCount := samplesCount }
        let m3 := (m4aFileSetSizeOffset m2).2
        let l := sampleSizesLoop samplesCount 0 0 m3
        if !l.1 then (0, l.2.2.2)
        else
          let m4 := setTotalSampleSize l.2.2.2 l.2.1
          let m5 := { m4 with largestSampleSize := l.2.2.1 }
          let _ := boxBytesLeft
          (u32 (12 + u32 (samplesCount * 4)), m5)

/-- `mp4BoxParseMediaData` (`mdat`): records the payload offset, cross-checks
the total sample size and skips the body. -/
def mp4BoxParseMediaData (m : M4AFile) (boxBytesLeft : Nat) : Nat × M4AFile :=
  let m1 := (m4aFileSetDataOffset m).2
  let m2 := setTotalSampleSize m1 boxBytesLeft
  mp4BoxSkip m2 boxBytesLeft

/-- `mp4BoxParseAppleData`: one `mean`/`name`/`data` child of an iTunes
annotation box (reads its own size/type header). -/
def mp4BoxParseAppleData (m : M4AFile) : Nat × M4AFile :=
  let p := m4aFileReadUnsignedLong m
  if !p.1 then (0, p.2.2)
  else
    let boxSize := p.2.1
    let q := m4aFileReadUnsignedLong p.2.2
    if !q.1 then (0, q.2.2)
    else
      let isDataBox := q.2.1 = 0x64617461
      let c := m4aFileCheckVersionAndFlags q.2.2 0 0 0x00ffffe0
      if !c.1 then (0, c.2.2.2)
      else
        let m1 := c.2.2.2
        let afterHeader :=
          if isDataBox then
            let s := m4aFileSkipBytes m1 4
            (16, s.2)
          else (12, m1)
        let boxBytesRead := afterHeader.1
        let m2 := afterHeader.2
        if boxBytesRead < boxSize then
          let r := m4aFileReadMetadataContent m2 (usub32 boxSize boxBytesRead)
          if !r.1 then (0, r.2)
          else (boxSize, r.2)
        else if boxBytesRead > boxSize then
          (boxBytesRead, { m2 with status := M4AFileStatus.parsedWithWarnings })
        else (boxBytesRead, m2)

/-- The dispatch kinds of the `mp4BoxParserTable` handlers. -/
inductive BoxHandlerKind where
  | fileType
  | container
  | mediaHeader
  | trackHeader
  | sampleDescriptions
  | sampleDescription
  | sampleTimes
  | sampleSizes
  | metadata
  | appleAnnotation
  | mediaData
  | skip
deriving Repr, DecidableEq

/-- The generic sub-parser handed to `mp4BoxParseContainerInternal`: either
`mp4BoxParse` itself or `mp4BoxParseAppleData`. -/
inductive GenParser where
  | box
  | appleData
deriving Repr, DecidableEq

/-- `mp4BoxParserTable` from m4afile.c (all entries, in table order). -/
def mp4BoxParserTable : List (Nat × BoxHandlerKind) :=
  [ (0x66747970, BoxHandlerKind.fileType),            -- ftyp
    (0x6D6F6F76, BoxHandlerKind.container),           -- moov
    (0x6D766864, BoxHandlerKind.mediaHeader),         -- mvhd
    (0x7472616B, BoxHandlerKind.container),           -- trak
    (0x746B6864, BoxHandlerKind.trackHeader),         -- tkhd
    (0x75647461, BoxHandlerKind.container),           -- udta
    (0x6D646961, BoxHandlerKind.container),           -- mdia
    (0x6D646864, BoxHandlerKind.mediaHeader),         -- mdhd
    (0x68646C72, BoxHandlerKind.skip),                -- hdlr
    (0x6D696E66, BoxHandlerKind.container),           -- minf
    (0x736D6864, BoxHandlerKind.skip),                -- smhd
    (0x64696E66, BoxHandlerKind.container),           -- dinf
    (0x64726566, BoxHandlerKind.skip),                -- dref
    (0x7374626C, BoxHandlerKind.container),           -- stbl
    (0x73747364, BoxHandlerKind.sampleDescriptions),  -- stsd
    (0x616C6163, BoxHandlerKind.sampleDescription),   -- alac
    (0x6D703461, BoxHandlerKind.sampleDescription),   -- mp4a
    (0x73747473, BoxHandlerKind.sampleTimes),         -- stts
    (0x73747363, BoxHandlerKind.skip),                -- stsc
    (0x7374737A, BoxHandlerKind.sampleSizes),         -- stsz
    (0x7374636F, BoxHandlerKind.skip),                -- stco
    (0x6D657461, BoxHandlerKind.metadata),            -- meta
    (0x696C7374, BoxHandlerKind.container),           -- ilst
    (0x2D2D2D2D, BoxHandlerKind.appleAnnotation),     -- ----
    (0x66726565, BoxHandlerKind.skip),                -- free
    (0x6D646174, BoxHandlerKind.mediaData),           -- mdat
    (0xA96E616D, BoxHandlerKind.appleAnnotation),     -- (c)nam
    (0xA9415254, BoxHandlerKind.appleAnnotation),     -- (c)ART
    (0x61415254, BoxHandlerKind.appleAnnotation),     -- aART
    (0xA9616C62, BoxHandlerKind.appleAnnotation),     -- (c)alb
    (0xA9677270, BoxHandlerKind.appleAnnotation),     -- (c)grp
    (0xA9777274, BoxHandlerKind.appleAnnotation),     -- (c)wrt
    (0xA9636D74, BoxHandlerKind.appleAnnotation),     -- (c)cmt
    (0x676E7265, BoxHandlerKind.appleAnnotation),     -- gnre
    (0xA967656E, BoxHandlerKind.appleAnnotation),     -- (c)gen
    (0xA9646179, BoxHandlerKind.appleAnnotation),     -- (c)day
    (0x74726B6E, BoxHandlerKind.appleAnnotation),     -- trkn
    (0x6469736B, BoxHandlerKind.appleAnnotation),     -- disk
    (0x746D706F, BoxHandlerKind.appleAnnotation),     -- tmpo
    (0x6370696C, BoxHandlerKind.appleAnnotation),     -- cpil
    (0x64657363, BoxHandlerKind.appleAnnotation),     -- desc
    (0x6C646573, BoxHandlerKind.appleAnnotation),     -- ldes
    (0xA96C7972, BoxHandlerKind.appleAnnotation),     -- (c)lyr
    (0x736F6E6D, BoxHandlerKind.appleAnnotation),     -- sonm
    (0x736F6172, BoxHandlerKind.appleAnnotation),     -- soar
    (0x736F6161, BoxHandlerKind.appleAnnotation),     -- soaa
    (0x736F616C, BoxHandlerKind.appleAnnotation),     -- soal
    (0x736F636F, BoxHandlerKind.appleAnnotation),     -- soco
    (0x736F736E, BoxHandlerKind.appleAnnotation),     -- sosn
    (0x636F7672, BoxHandlerKind.appleAnnotation),     -- covr
    (0x63707274, BoxHandlerKind.appleAnnotation),     -- cprt
    (0xA9746F6F, BoxHandlerKind.appleAnnotation),     -- (c)too
    (0xA9656E63, BoxHandlerKind.appleAnnotation),     -- (c)enc
    (0x70757264, BoxHandlerKind.appleAnnotation),     -- purd
    (0x70637374, BoxHandlerKind.appleAnnotation),     -- pcst
    (0x7075726C, BoxHandlerKind.appleAnnotation),     -- purl
    (0x6B657977, BoxHandlerKind.appleAnnotation),     -- keyw
    (0x63617467, BoxHandlerKind.appleAnnotation),     -- catg
    (0x7374696B, BoxHandlerKind.appleAnnotation),     -- stik
    (0x72746E67, BoxHandlerKind.appleAnnotation),     -- rtng
    (0x70676170, BoxHandlerKind.appleAnnotation),     -- pgap
    (0x61704944, BoxHandlerKind.appleAnnotation),     -- apID
    (0x616B4944, BoxHandlerKind.appleAnnotation),     -- akID
    (0x636E4944, BoxHandlerKind.appleAnnotation),     -- cnID
    (0x73664944, BoxHandlerKind.appleAnnotation),     -- sfID
    (0x61744944, BoxHandlerKind.appleAnnotation),     -- atID
    (0x706C4944, BoxHandlerKind.appleAnnotation),     -- plID
    (0x67654944, BoxHandlerKind.appleAnnotation),     -- geID
    (0xA9737433, BoxHandlerKind.appleAnnotation) ]    -- (c)st3

/-- Table lookup of `mp4BoxParse` (sequential search ending at the `{0,NULL}`
sentinel).  A box type of 0 would make the C search stop at the sentinel
and call its NULL handler (a crash); the model leaves type 0 unhandled and
the theorems that quantify over box types exclude it. -/
def findBoxParser (boxType : Nat) : Option BoxHandlerKind :=
  (mp4BoxParserTable.find? (fun e => e.1 = boxType)).map (·.2)

/-- Size policing at the end of `mp4BoxParse`: a handler reporting fewer
bytes than the declared box size triggers a force-skip of the difference
(with `M4AFILE_PARSED_WITH_WARNINGS`); reporting more only records the
warning status. -/
def mp4BoxParseFinish (boxSize boxBytesRead : Nat) (m : M4AFile) : Nat × M4AFile :=
  if boxBytesRead < boxSize then
    let m1 := { m with status := M4AFileStatus.parsedWithWarnings }
    let s := m4aFileSkipBytes m1 (usub32 boxSize boxBytesRead)
    (boxSize, s.2)
  else if boxBytesRead > boxSize then
    (boxBytesRead, { m with status := M4AFileStatus.parsedWithWarnings })
  else (boxBytesRead, m)

/-- Container epilogue of `mp4BoxParseContainerInternal`: sub-boxes reading
past the container's declared size only records a warning. -/
def containerFinish (boxBytesLeft containerSize : Nat) (m : M4AFile) : Nat × M4AFile :=
  if m.status ≠ M4AFileStatus.error ∧ containerSize > boxBytesLeft then
    (containerSize, { m with status := M4AFileStatus.parsedWithWarnings })
  else (containerSize, m)

/-- Run a generic sub-parser.  `boxParse` is the box parser available at
the current recursion depth (`mp4BoxParse` itself in the C code, which
recurses without bound; the embedding ties the knot through the fuel
parameter of `mp4BoxParse`). -/
def runGenParser (boxParse : M4AFile → Nat × M4AFile) :
    GenParser → M4AFile → Nat × M4AFile
  | GenParser.box, m => boxParse m
  | GenParser.appleData, m => mp4BoxParseAppleData m

/-- The `while` loop of `mp4BoxParseContainerInternal`: repeatedly run the
sub-parser while no error occurred and the container size is not reached.
`fuel` bounds the iterations; the C loop is unbounded (and can even fail to
terminate when a sub-parser consumes nothing). -/
def containerLoop (boxParse : M4AFile → Nat × M4AFile) :
    Nat → GenParser → Nat → Nat → M4AFile → Nat × M4AFile
  | 0, _, containerSize, _, m => (containerSize, m)
  | fuel + 1, gp, containerSize, boxBytesLeft, m =>
    if m.status ≠ M4AFileStatus.error ∧ containerSize < boxBytesLeft then
      let r := runGenParser boxParse gp m
      containerLoop boxParse fuel gp (u32 (containerSize + r.1)) boxBytesLeft r.2
    else (containerSize, m)

/-- Dispatch to the handler registered for a box type (the body of the
container-style handlers is inlined here because they recurse through the
generic sub-parser). -/
def runBoxHandler (boxParse : M4AFile → Nat × M4AFile) (fuel : Nat)
    (kind : BoxHandlerKind) (boxType boxBytesLeft : Nat) (m : M4AFile) :
    Nat × M4AFile :=
  match kind with
  | BoxHandlerKind.fileType => mp4BoxParseFileType m boxBytesLeft
  | BoxHandlerKind.mediaHeader => mp4BoxParseMediaHeader m boxBytesLeft
  | BoxHandlerKind.trackHeader => mp4BoxParseTrackHeader m boxBytesLeft
  | BoxHandlerKind.sampleDescription =>
      mp4BoxParseSampleDescription m boxType boxBytesLeft
  | BoxHandlerKind.sampleTimes => mp4BoxParseSampleTimes m boxBytesLeft
  | BoxHandlerKind.sampleSizes => mp4BoxParseSampleSizes m boxBytesLeft
  | BoxHandlerKind.mediaData => mp4BoxParseMediaData m boxBytesLeft
  | BoxHandlerKind.skip => mp4BoxSkip m boxBytesLeft
  | BoxHandlerKind.container =>
      let l := containerLoop boxParse fuel GenParser.box 0 boxBytesLeft m
      containerFinish boxBytesLeft l.1 l.2
  | BoxHandlerKind.appleAnnotation =>
      let l := containerLoop boxParse fuel GenParser.appleData 0 boxBytesLeft m
      containerFinish boxBytesLeft l.1 l.2
  | BoxHandlerKind.sampleDescriptions =>
      -- version/flags, skip the 4-byte description count, then recurse
      let c := m4aFileCheckVersionAndFlags m 0 0 0x00ffffff
      if !c.1 then (0, c.2.2.2)
      else
        let s := m4aFileSkipBytes c.2.2.2 4
        let l := containerLoop boxParse fuel GenParser.box 0 (usub32 boxBytesLeft 8) s.2
        let f := containerFinish (usub32 boxBytesLeft 8) l.1 l.2
        (u32 (8 + f.1), f.2)
  | BoxHandlerKind.metadata =>
      -- version/flags, then recurse over the metadata boxes
      let c := m4aFileCheckVersionAndFlags m 0 0 0x00ffffff
      if !c.1 then (0, c.2.2.2)
      else
        let l := containerLoop boxParse fuel GenParser.box 0 (usub32 boxBytesLeft 4) c.2.2.2
        let f := containerFinish (usub32 boxBytesLeft 4) l.1 l.2
        (u32 (4 + f.1), f.2)

/-- The body of `mp4BoxParse`: reads the 8-byte box header, dispatches on
the type and polices the declared size.  A failed size read at EOF resets
the status to `M4AFILE_OK` (the "little hack" tolerating up to 3 trailing
bytes). -/
def mp4BoxParseStep (boxParse : M4AFile → Nat × M4AFile) (fuel : Nat)
    (m : M4AFile) : Nat × M4AFile :=
  let p := m4aFileReadUnsignedLong m
  if !p.1 then
    if p.2.2.dataStream.eofFlag then (0, { p.2.2 with status := M4AFileStatus.ok })
    else (0, p.2.2)
  else
    let boxSize := p.2.1
    let q := m4aFileReadUnsignedLong p.2.2
    if !q.1 then (0, q.2.2)
    else
      match findBoxParser q.2.1 with
      | some kind =>
        let r := runBoxHandler boxParse fuel kind q.2.1 (usub32 boxSize 8) q.2.2
        mp4BoxParseFinish boxSize (u32 (8 + r.1)) r.2
      | none => mp4BoxParseFinish boxSize 8 q.2.2

/-- `mp4BoxParse`: one `mp4BoxParseStep` per fuel level; `fuel` bounds the
recursion depth of the embedding (the C code has no such bound). -/
def mp4BoxParse : Nat → M4AFile → Nat × M4AFile
  | 0 => fun m => (0, m)
  | fuel + 1 => mp4BoxParseStep (mp4BoxParse fuel) fuel

/-- The top-level box loop of `m4aFileParse`. -/
def m4aFileParseLoop (fuel : Nat) (m : M4AFile) : M4AFile :=
  match fuel with
  | 0 => m
  | fuel + 1 =>
    if m.status ≠ M4AFileStatus.error then
      let r := mp4BoxParse fuel m
      if r.1 > 0 then m4aFileParseLoop fuel r.2 else r.2
    else m

/-- `m4aFileParse`: parse all top-level boxes, then position the data and
size streams at `dataOffset`/`sizeOffset`.  Returns `true` on warnings. -/
def m4aFileParse (fuel : Nat) (m : M4AFile) : Bool × M4AFile :=
  let m1 := m4aFileParseLoop fuel m
  if m1.status ≠ M4AFileStatus.error then
    (true, { m1 with dataStream := mstreamSeekSet m1.dataStream m1.dataOffset,
                     sizeStream := mstreamSeekSet m1.sizeStream m1.sizeOffset })
  else (false, m1)

/-! ### Post-parse API (sample iteration and duration) -/

/-- `m4aFileHasParsedWithWarnings`. -/
def m4aFileHasParsedWithWarnings (m : M4AFile) : Bool :=
  m.status = M4AFileStatus.parsedWithWarnings

/-- `m4aFileGetLength`: `tv_sec = duration / timescale` and
`tv_nsec = 10^9 * (duration - tv_sec * timescale) / timescale`, with no
guard on `timescale` in the C code; the division-by-zero executions are the
`none` branch of this total embedding. -/
def m4aFileGetLength (m : M4AFile) : Option (Nat × Nat) :=
  if m.timescale = 0 then none
  else
    let sec := m.duration / m.timescale
    some (sec, 1000000000 * (m.duration - sec * m.timescale) / m.timescale)

/-- `m4aFileGetLargestSampleSize`. -/
def m4aFileGetLargestSampleSize (m : M4AFile) : Nat := m.largestSampleSize

/-- The seek loop of `m4aFileSetSampleOffset`: read one 32-bit size from the
size stream and skip that many bytes of the data stream, `k` times. -/
def sampleSeekLoop : Nat → MStream → MStream → Bool × MStream × MStream
  | 0, sizeStream, dataStream => (true, sizeStream, dataStream)
  | k + 1, sizeStream, dataStream =>
    let p := read4ByteUnsignedInt32 sizeStream
    if didReadErrorOccur p.2 then (false, p.2, dataStream)
    else sampleSeekLoop k p.2 (mstreamSeekCur dataStream p.1)

/-- `m4aFileSetSampleOffset`: computes the starting sample index
`timescale * tv_sec / 4096` (`uint32_t` truncation), rejects indices beyond
`samplesCount`, repositions both streams and walks forward sample by
sample.  The nanosecond part of the `timespec` is ignored by the C code. -/
def m4aFileSetSampleOffset (m : M4AFile) (tvSec : Nat) : Bool × M4AFile :=
  let sampleOffset := u32 (m.timescale * tvSec / 4096)
  if sampleOffset ≥ m.samplesCount then (false, m)
  else
    let sz := mstreamSeekSet m.sizeStream m.sizeOffset
    let da := mstreamSeekSet m.dataStream m.dataOffset
    let l := sampleSeekLoop sampleOffset sz da
    (l.1, { m with sizeStream := l.2.1, dataStream := l.2.2 })

/-- `m4aFileGetCurrentSampleIndex`: `(ftell(sizeStream) - sizeOffset) / 4`
in `uint32_t` arithmetic. -/
def m4aFileGetCurrentSampleIndex (m : M4AFile) : Nat :=
  usub32 (mstreamTell m.sizeStream) m.sizeOffset / 4

/-- `m4aFileHasMoreSamples`. -/
def m4aFileHasMoreSamples (m : M4AFile) : Bool :=
  m4aFileGetCurrentSampleIndex m < m.samplesCount

/-- `m4aFileGetNextSample`: reads the next 32-bit size from the size stream,
then that many bytes from the data stream.  The C signature receives only a
`uint8_t *` - no buffer length is passed and none is checked; `bufferCap`
records the capacity of the caller's buffer purely so that statements can
speak about it (the control flow is independent of it, and a sample larger
than the buffer is written past its end by the C code).  Returns
`(ok, file, sampleSize, bytes read)`. -/
def m4aFileGetNextSample (m : M4AFile) (bufferCap : Nat) :
    Bool × M4AFile × Nat × List Nat :=
  let _ := bufferCap
  let p := read4ByteUnsignedInt32 m.sizeStream
  if didReadErrorOccur p.2 then (false, { m with sizeStream := p.2 }, 0, [])
  else
    let dataSize := p.1
    let r := m4aFileReadData { m with sizeStream := p.2 } dataSize
    if !r.1 then (false, r.2.2, 0, r.2.1)
    else (true, r.2.2, dataSize, r.2.1)

/-! ## RAOP client model (raopclient.c) -/

/-- The audio frame built by `raopClientSendAudioMessages`: the 16-byte
header is cleared, byte 0 becomes 0x24, byte 4 0xF0, byte 5 0xFF, and
`htons((uint16_t)(sampleSize + 12))` is copied to bytes 2-3 (big-endian);
the sample payload, written at offset 16 by `m4aFileGetNextSample`, follows.
The frame handed to `networkSendMessage` is `16 + sampleSize` bytes. -/
def raopClientAudioMessage (sampleSize : Nat) (payload : List Nat) : List Nat :=
  let header := List.replicate 16 0
  let header := header.set 0 0x24
  let header := header.set 4 0xf0
  let header := header.set 5 0xff
  let packetLength := (sampleSize + 12) % 65536
  let header := header.set 2 (packetLength / 256)
  let header := header.set 3 (packetLength % 256)
  header ++ payload

/-- The input validation of `raopClientSetVolume`: volumes below
`VOLUME_MIN_VALUE` (0.01) become `VOLUME_MUTED` (0), volumes above
`VOLUME_MAX_VALUE` (30) become 30.  The C `float` arithmetic is exact on
the values involved, so it is embedded over `ℚ`. -/
def raopClientClampVolume (volume : ℚ) : ℚ :=
  let v1 := if volume < 1/100 then 0 else volume
  if v1 > 30 then 30 else v1

/-- The internal volume sent by `raopClientSetVolumeContentSupplier`:
`volume >= VOLUME_MIN_VALUE ? VOLUME_INTERNAL_OFFSET + volume :
VOLUME_INTERNAL_MUTED` (offset -30, muted -144). -/
def raopClientVolumeInternal (volume : ℚ) : ℚ :=
  if volume ≥ 1/100 then -30 + volume else -144

/-- Rendering of `printf("%.1f", q)` for the exact values produced by the
volume mapping: one decimal digit, obtained by rounding `10 * q` to the
nearest integer (`floor (x + 1/2)`, written with `Int.fdiv` so it
computes; the client only emits exact multiples of 0.1, where every
rounding mode agrees with the C library's). -/
def formatFixed1 (q : ℚ) : String :=
  let n : Int := Int.fdiv (2 * (10 * q).num + ((10 * q).den : Int)) (2 * ((10 * q).den : Int))
  (if n < 0 then "-" else "") ++ toString (n.natAbs / 10) ++ "." ++ toString (n.natAbs % 10)

/-- The `SET_PARAMETER` body built by `raopClientSetVolumeContentSupplier`
from the stored volume. -/
def raopClientSetVolumeContent (storedVolume : ℚ) : String :=
  "volume: " ++ formatFixed1 (raopClientVolumeInternal storedVolume) ++ "\r\n"

/-- The body transmitted by `raopClientSetVolume v` while streaming: the
supplier reads the volume that `raopClientSetVolume` just clamped and
stored. -/
def raopClientSetVolumeBody (volume : ℚ) : String :=
  raopClientSetVolumeContent (raopClientClampVolume volume)

/-! ## RTSP client model (rtspclient.c)

The MD5 routine is external (`md5/md5.h`); the digest computation is
parameterised by an abstract `md5 : String → List Nat`.  `Md5Model` states
what the sources assume of it: 16 output bytes, each below 256. -/

/-- A conformant MD5 collaborator (the bundled routine is external to the
core sources): 16 output bytes.  C strings and buffers are `List Char`. -/
def Md5Model (md5 : List Char → List Nat) : Prop :=
  ∀ s, (md5 s).length = 16 ∧ ∀ b ∈ md5 s, b < 256

/-- An upper-case hex digit. -/
def hexDigitUpper (n : Nat) : Char :=
  match n with
  | 0 => '0' | 1 => '1' | 2 => '2' | 3 => '3' | 4 => '4'
  | 5 => '5' | 6 => '6' | 7 => '7' | 8 => '8' | 9 => '9'
  | 10 => 'A' | 11 => 'B' | 12 => 'C' | 13 => 'D' | 14 => 'E'
  | _ => 'F'

/-- `sprintf("%02X", byte)` for one byte. -/
def byteHexUpper (b : Nat) : List Char :=
  [hexDigitUpper (b / 16 % 16), hexDigitUpper (b % 16)]

/-- The hex-rendering loops of `rtspClientAddAuthenticationFields`
(`sprintf(&s[index * 2], "%02X", digest[index])`). -/
def bytesHexUpper (bs : List Nat) : List Char :=
  (bs.map byteHexUpper).flatten

/-- `snprintf("%X", n)` (upper-case hex, no leading zeros), used for the
`Session` header value. -/
def natToHexUpper (n : Nat) : String :=
  String.mk ((Nat.toDigits 16 n).map Char.toUpper)

/-- `rtspClientAddAuthenticationFields`' header value: RFC 2617 unqualified
digest with hard-coded `username = "iTunes"` and `password = "geheim"`
(the CLI `-c` password is never threaded through).  `MD5_Update` is called
with `DIGEST_STRING_SIZE` (32) bytes of each hex buffer, the response is
rendered with precision 32, and the final `snprintf` has a
`MAX_AUTHENTICATION_BUFFER_SIZE` (200) byte buffer, so at most 199
characters of the assembled value survive. -/
def rtspAuthValue (md5 : List Char → List Nat)
    (methodName url realm nonce : List Char) : List Char :=
  let ha1String := (bytesHexUpper (md5 ("iTunes:".data ++ realm ++ ":geheim".data))).take 32
  let ha2String := (bytesHexUpper (md5 (methodName ++ ":".data ++ url))).take 32
  let responseString :=
    (bytesHexUpper (md5 (ha1String ++ ":".data ++ nonce ++ ":".data ++ ha2String))).take 32
  ("Digest username=\"iTunes\", realm=\"".data ++ realm ++
   "\", nonce=\"".data ++ nonce ++
   "\", uri=\"".data ++ url ++
   "\", response=\"".data ++ responseString ++ "\"".data).take 199

/-- The digest header value as §4.5 of the specification words it (the
refinement counterpart of `rtspAuthValue`, written from the spec's words,
with no output truncation). -/
def specDigestHeaderValue (md5 : List Char → List Nat)
    (methodName url realm nonce : List Char) : List Char :=
  let ha1 := bytesHexUpper (md5 ("iTunes:".data ++ realm ++ ":geheim".data))
  let ha2 := bytesHexUpper (md5 (methodName ++ ":".data ++ url))
  let resp := bytesHexUpper (md5 (ha1 ++ ":".data ++ nonce ++ ":".data ++ ha2))
  "Digest username=\"iTunes\", realm=\"".data ++ realm ++
  "\", nonce=\"".data ++ nonce ++
  "\", uri=\"".data ++ url ++
  "\", response=\"".data ++ resp ++ "\"".data

/-- `RTSPRequestMethod` from rtsprequest.h. -/
inductive RTSPRequestMethod where
  | OPTIONS
  | ANNOUNCE
  | SETUP
  | RECORD
  | SET_PARAMETER
  | FLUSH
  | TEARDOWN
deriving Repr, DecidableEq

/-- `METHOD_NAMES` from rtsprequest.c. -/
def rtspRequestMethodName : RTSPRequestMethod → String
  | RTSPRequestMethod.OPTIONS => "OPTIONS"
  | RTSPRequestMethod.ANNOUNCE => "ANNOUNCE"
  | RTSPRequestMethod.SETUP => "SETUP"
  | RTSPRequestMethod.RECORD => "RECORD"
  | RTSPRequestMethod.SET_PARAMETER => "SET_PARAMETER"
  | RTSPRequestMethod.FLUSH => "FLUSH"
  | RTSPRequestMethod.TEARDOWN => "TEARDOWN"

/-- The fields of an RTSP response that rtspclient.c extracts, as parsed by
rtspresponse.c: the status code, and the optional `CSeq`, `Session` (hex),
`Transport:server_port` and `WWW-Authenticate` digest `(realm, nonce)`
values. -/
structure RTSPResponseData where
  status : Int
  cseq : Option Nat
  session : Option Nat
  serverPort : Option Int
  wwwAuth : Option (String × String)
deriving Repr, DecidableEq

/-- The session state of `struct RTSPClientStruct`: `realm`/`nonce` are the
stored challenge buffers (empty string models size 0), and `lastResponse`
stands for the retained `rtspResponse` object. -/
structure RTSPClientState where
  url : String
  sessionId : Nat
  sequenceNumber : Nat
  needAuthentication : Bool
  realm : String
  nonce : String
  lastResponse : Option RTSPResponseData
deriving Repr, DecidableEq

/-- The session fields as initialized by `rtspClientOpenConnection`. -/
def rtspClientOpenConnectionState (url : String) : RTSPClientState :=
  { url := url, sessionId := 0, sequenceNumber := 0, needAuthentication := false,
    realm := "", nonce := "", lastResponse := none }

/-- One request as assembled and sent by `rtspClientSendRequest` (the header
fields in the order they are added). -/
structure SentRequest where
  method : RTSPRequestMethod
  headers : List (String × String)
deriving Repr, DecidableEq

instance : Inhabited SentRequest := ⟨{ method := RTSPRequestMethod.OPTIONS, headers := [] }⟩

/-- `rtspClientClientGeneralHeaderFieldsSupplier`: increments the
`uint32_t` sequence number and adds the `CSeq` header. -/
def rtspClientClientGeneralHeaderFieldsSupplier (st : RTSPClientState) :
    RTSPClientState × List (String × String) :=
  let seq := u32 (st.sequenceNumber + 1)
  ({ st with sequenceNumber := seq }, [("CSeq", toString seq)])

/-- `rtspClientAddAuthenticationFields`: obtains `(realm, nonce)` from the
session, or extracts them from the last response (which fails when the
response carries no digest challenge or a value exceeds the 20/41-byte
buffers), and adds the `Authorization` header. -/
def rtspClientAddAuthenticationFields (md5 : List Char → List Nat)
    (st : RTSPClientState) (method : RTSPRequestMethod) :
    Option (RTSPClientState × (String × String)) :=
  if st.realm.length = 0 ∨ st.nonce.length = 0 then
    match st.lastResponse with
    | none => none
    | some resp =>
      match resp.wwwAuth with
      | none => none
      | some rn =>
        if rn.1.length ≤ 20 ∧ rn.2.length ≤ 41 then
          some ({ st with realm := rn.1, nonce := rn.2 },
            ("Authorization", String.mk (rtspAuthValue md5
              (rtspRequestMethodName method).data st.url.data rn.1.data rn.2.data)))
        else none
  else
    some (st, ("Authorization", String.mk (rtspAuthValue md5
      (rtspRequestMethodName method).data st.url.data st.realm.data st.nonce.data)))

/-- `rtspClientAddHeaderFields`: the per-method supplier (general `CSeq`
header first, then the method-specific fields), followed by the
authentication fields when a challenge is pending or stored - whose result
the C code ignores. -/
def rtspClientAddHeaderFields (md5 : List Char → List Nat) (st : RTSPClientState)
    (method : RTSPRequestMethod) : RTSPClientState × List (String × String) :=
  let g := rtspClientClientGeneralHeaderFieldsSupplier st
  let st1 := g.1
  let specific : List (String × String) :=
    match method with
    | RTSPRequestMethod.SETUP =>
        [("Transport", "RTP/AVP/TCP;unicast;interleaved=0-1;mode=record")]
    | RTSPRequestMethod.RECORD =>
        [("Session", natToHexUpper st1.sessionId), ("Range", "npt=0-"),
         ("RTP-Info", "seq=0;rtptime=0")]
    | RTSPRequestMethod.FLUSH =>
        [("Session", natToHexUpper st1.sessionId), ("RTP-Info", "seq=0;rtptime=0")]
    | RTSPRequestMethod.TEARDOWN =>
        [("Session", natToHexUpper st1.sessionId)]
    | _ => []
  let hs := g.2 ++ specific
  if st1.needAuthentication ∨ (st1.realm.length > 0 ∧ st1.nonce.length > 0) then
    match rtspClientAddAuthenticationFields md5 st1 method with
    | some p => (p.1, hs ++ [p.2])
    | none => (st1, hs)
  else (st1, hs)

/-- `rtspClientSendRequest`: build (or reset) the request, add the header
fields and the optional body, and send it.  The network send is always
successful in the model; the request that went on the wire is returned. -/
def rtspClientSendRequest (md5 : List Char → List Nat) (st : RTSPClientState)
    (method : RTSPRequestMethod) : RTSPClientState × SentRequest :=
  let a := rtspClientAddHeaderFields md5 st method
  (a.1, { method := method, headers := a.2 })

/-- `rtspClientReceiveResponse`: stores the response, clears
`needAuthentication`, and checks the status code - 2xx passes (with a
warning above 200), 401 sets `needAuthentication` and still returns `true`,
anything else fails. -/
def rtspClientReceiveResponse (st : RTSPClientState) (resp : RTSPResponseData) :
    Bool × RTSPClientState :=
  let st1 := { st with lastResponse := some resp, needAuthentication := false }
  if resp.status ≠ 200 then
    if 200 < resp.status ∧ resp.status < 300 then (true, st1)
    else if resp.status ≠ 401 then (false, st1)
    else (true, { st1 with needAuthentication := true })
  else (true, st1)

/-- The outcome of `rtspClientSendCommand`: the C return value, the session
state, and every request that was sent on the wire. -/
structure SendCommandResult where
  ok : Bool
  state : RTSPClientState
  requests : List SentRequest
deriving Repr, DecidableEq

/-- The response checks at the end of `rtspClientSendCommand`: `CSeq` must
be present (a mismatch is only a warning) and, for `SETUP`, the `Session`
id and `Transport:server_port` are extracted (either missing is fatal). -/
def rtspClientSendCommandFinish (method : RTSPRequestMethod)
    (st3 : RTSPClientState) (reqs : List SentRequest) : SendCommandResult :=
  match st3.lastResponse with
  | none => ⟨false, st3, reqs⟩
  | some lr =>
    match lr.cseq with
    | none => ⟨false, st3, reqs⟩
    | some _ =>
      if method = RTSPRequestMethod.SETUP then
        match lr.session with
        | none => ⟨false, st3, reqs⟩
        | some sid =>
          let st4 := { st3 with sessionId := u32 sid }
          match lr.serverPort with
          | none => ⟨false, st4, reqs⟩
          | some _ => ⟨true, st4, reqs⟩
      else ⟨true, st3, reqs⟩

/-- `rtspClientSendCommand`: send, receive, repeat the request/response
exchange once if the response demanded authentication, then perform the
final response checks (`rtspClientSendCommandFinish`).  `responses` are the
server's answers in order; an exhausted list models a failed network
receive. -/
def rtspClientSendCommand (md5 : List Char → List Nat) (st : RTSPClientState)
    (method : RTSPRequestMethod) (responses : List RTSPResponseData) :
    SendCommandResult :=
  let s1 := rtspClientSendRequest md5 st method
  match responses with
  | [] => ⟨false, s1.1, [s1.2]⟩
  | r1 :: rest =>
    let rec1 := rtspClientReceiveResponse s1.1 r1
    if !rec1.1 then ⟨false, rec1.2, [s1.2]⟩
    else
      let afterAuth : Bool × RTSPClientState × List SentRequest :=
        if rec1.2.needAuthentication then
          let s2 := rtspClientSendRequest md5 rec1.2 method
          match rest with
          | [] => (false, s2.1, [s1.2, s2.2])
          | r2 :: _ =>
            let rec2 := rtspClientReceiveResponse s2.1 r2
            (rec2.1, rec2.2, [s1.2, s2.2])
        else (true, rec1.2, [s1.2])
      if !afterAuth.1 then ⟨false, afterAuth.2.1, afterAuth.2.2⟩
      else rtspClientSendCommandFinish method afterAuth.2.1 afterAuth.2.2

/-- A whole conversation: `rtspClientSendCommand` for each method with the
corresponding server responses, collecting every request sent on the wire
(the property proved about `CSeq` holds for any prefix, hence also for runs
the caller aborts after a failed command). -/
def rtspClientRunCommands (md5 : List Char → List Nat) (st : RTSPClientState) :
    List (RTSPRequestMethod × List RTSPResponseData) →
    RTSPClientState × List SentRequest
  | [] => (st, [])
  | c :: rest =>
    let r := rtspClientSendCommand md5 st c.1 c.2
    let t := rtspClientRunCommands md5 r.state rest
    (t.1, r.requests ++ t.2)

/-- The `CSeq` header value carried by a request. -/
def requestCSeq (req : SentRequest) : Option String :=
  (req.headers.find? (fun h => h.1 = "CSeq")).map (·.2)

/-- Whether a request carries an `Authorization` header. -/
def requestHasAuthorization (req : SentRequest) : Bool :=
  req.headers.any (fun h => h.1 = "Authorization")

/-! ## Concrete inputs used by counterexamples and witnesses -/

/-- A conformant placeholder MD5 (any 16-byte function witnesses `Md5Model`;
the relevant statements hold for every conformant collaborator). -/
def md5Zero : List Char → List Nat := fun _ => List.replicate 16 0

/-- A file consisting of one version-1 `mdhd` box (total size 40): 4-byte
size, type `mdhd`, version/flags `0x01000000`, 16 bytes of creation and
modification time, a timescale of 44100 and the 64-bit duration split into
`upper`/`lower`. -/
def mdhdV1File (upper lower : Nat) : List Nat :=
  encode4 40 ++ encode4 0x6D646864 ++ encode4 0x01000000 ++ List.replicate 16 0 ++
  encode4 44100 ++ encode4 upper ++ encode4 lower

/-- A parsed descriptor whose `timescale * tv_sec / 4096` overflows
`uint32_t`: timescale 2^31 with one sample; the size/data tables are empty
because the seek loop runs zero times for the wrapped offset. -/
def overflowSeekFile : M4AFile :=
  { m4aFileOpenOn [] false with
      timescale := 2147483648, samplesCount := 1, sizeOffset := 0, dataOffset := 0 }

/-- A descriptor whose next sample (4 size bytes encoding 1, one data byte)
is intact while `largestSampleSize` is 1: any buffer shorter than 1 byte is
"too short" in the sense of claim C2. -/
def shortBufferFile : M4AFile :=
  { m4aFileOpenOn [] false with
      sizeStream := ⟨[0, 0, 0, 1], 0, false, false⟩,
      dataStream := ⟨[171], 0, false, false⟩,
      largestSampleSize := 1, samplesCount := 1, sizeOffset := 0, dataOffset := 0 }

/-- A well-formed two-sample descriptor (timescale 4096, so one second maps
to exactly one sample offset): the `stsz` cursor data holds sizes 1 and 2. -/
def seekDemoFile : M4AFile :=
  { m4aFileOpenOn [] false with
      timescale := 4096, samplesCount := 2, sizeOffset := 0, dataOffset := 0,
      sizeStream := ⟨[0, 0, 0, 1, 0, 0, 0, 2], 0, false, false⟩,
      dataStream := ⟨[9, 9, 9], 0, false, false⟩ }

/-- A 20-character realm (the maximum `MAX_REALM_SIZE` accepts). -/
def longRealm : List Char := "RRRRRRRRRRRRRRRRRRRR".data

/-- A 41-character nonce (the maximum `MAX_NONCE_SIZE` accepts). -/
def longNonce : List Char := "NNNNNNNNNNNNNNNNNNNNNNNNNNNNNNNNNNNNNNNNN".data

/-- A 54-character session URL: `rtsp://` + a 45-character address (the
INET6_ADDRSTRLEN bound) + `/1`. -/
def longUrl : List Char := "rtsp://1111:2222:3333:4444:5555:6666:123.123.123.123/1".data

/-- The session URL used in concrete RTSP runs. -/
def exampleUrl : String := "rtsp://10.0.0.2/1"

/-- A `401 Unauthorized` response carrying a digest challenge, `CSeq` 1. -/
def resp401a : RTSPResponseData :=
  { status := 401, cseq := some 1, session := none, serverPort := none,
    wwwAuth := some ("AppleTV", "abcdef") }

/-- A second `401 Unauthorized` response, `CSeq` 2. -/
def resp401b : RTSPResponseData :=
  { status := 401, cseq := some 2, session := none, serverPort := none,
    wwwAuth := some ("AppleTV", "abcdef") }

/-- A plain `200 OK` response with a `CSeq`. -/
def resp200 (cseq : Nat) : RTSPResponseData :=
  { status := 200, cseq := some cseq, session := none, serverPort := none,
    wwwAuth := none }

/-! ## Helper lemmas -/

theorem getD_of_drop_eq_cons : ∀ (l : List Nat) (p b : Nat) (t : List Nat),
    l.drop p = b :: t → l.getD p 0 = b := by
  intro l
  induction l with
  | nil => intro p b t h; simp at h
  | cons x xs ih =>
    intro p b t h
    cases p with
    | zero => simp_all
    | succ p' => exact ih p' b t (by simpa using h)

theorem drop_succ_of_drop_eq_cons {l : List Nat} {p b : Nat} {t : List Nat}
    (h : l.drop p = b :: t) : l.drop (p + 1) = t := by
  rw [← List.tail_drop, h, List.tail_cons]

theorem lt_length_of_drop_eq_cons {l : List Nat} {p b : Nat} {t : List Nat}
    (h : l.drop p = b :: t) : p < l.length := by
  by_contra hle
  rw [List.drop_eq_nil_of_le (by omega)] at h
  exact List.noConfusion h

theorem mstreamGetc_cons {s : MStream} {b : Nat} {t : List Nat}
    (hd : s.bytes.drop s.pos = b :: t)
    (he : s.eofFlag = false) (hr : s.errFlag = false) :
    mstreamGetc s = (b, { s with pos := s.pos + 1 }) := by
  have hlt := lt_length_of_drop_eq_cons hd
  have hb : s.bytes.getD s.pos 0 = b := getD_of_drop_eq_cons _ _ _ _ hd
  have hb' : s.bytes[s.pos] = b := by
    rw [← hb]
    simp [List.getElem?_eq_getElem hlt]
  rw [mstreamGetc, he, hr]
  simp [hlt, hb']

/-- `x * 256 ||| y = x * 256 + y` for a byte `y`. -/
theorem lor_mul256_add (x y : Nat) (hy : y < 256) :
    Nat.lor (x * 256) y = x * 256 + y := by
  have h28 : (2 : Nat) ^ 8 = 256 := by norm_num
  apply Nat.eq_of_testBit_eq
  intro i
  rw [show Nat.lor (x * 256) y = (x * 256) ||| y from rfl, Nat.testBit_lor]
  have hylt : y < 2 ^ 8 := by rw [h28]; exact hy
  have hmain := Nat.testBit_mul_pow_two_add x (b := y) (i := 8) hylt i
  have hzero := Nat.testBit_mul_pow_two_add x (b := 0) (i := 8) (Nat.two_pow_pos 8) i
  rw [show x * 256 = 2 ^ 8 * x + 0 by rw [h28]; ring]
  rw [hzero, show 2 ^ 8 * x + 0 + y = 2 ^ 8 * x + y by ring, hmain]
  by_cases hcase : i < 8
  · simp [hcase]
  · have hyfalse : y.testBit i = false := by
      refine Nat.testBit_lt_two_pow (lt_of_lt_of_le hylt ?_)
      exact Nat.pow_le_pow_right (by omega) (by omega)
    simp [hcase, hyfalse]

/-- Reading four in-range bytes yields their big-endian value and advances
the position by 4. -/
theorem read4_cons {s : MStream} {b1 b2 b3 b4 : Nat} {t : List Nat}
    (hd : s.bytes.drop s.pos = b1 :: b2 :: b3 :: b4 :: t)
    (he : s.eofFlag = false) (hr : s.errFlag = false)
    (h1 : b1 < 256) (h2 : b2 < 256) (h3 : b3 < 256) (h4 : b4 < 256) :
    read4ByteUnsignedInt32 s =
      (((b1 * 256 + b2) * 256 + b3) * 256 + b4, { s with pos := s.pos + 4 }) := by
  have g1 := mstreamGetc_cons hd he hr
  have hd2 : ({ s with pos := s.pos + 1 } : MStream).bytes.drop (s.pos + 1) =
      b2 :: b3 :: b4 :: t := drop_succ_of_drop_eq_cons hd
  have g2 := mstreamGetc_cons (s := { s with pos := s.pos + 1 }) hd2 he hr
  have hd3 : ({ s with pos := s.pos + 1 + 1 } : MStream).bytes.drop (s.pos + 1 + 1) =
      b3 :: b4 :: t := drop_succ_of_drop_eq_cons hd2
  have g3 := mstreamGetc_cons (s := { s with pos := s.pos + 1 + 1 }) hd3 he hr
  have hd4 : ({ s with pos := s.pos + 1 + 1 + 1 } : MStream).bytes.drop
      (s.pos + 1 + 1 + 1) = b4 :: t := drop_succ_of_drop_eq_cons hd3
  have g4 := mstreamGetc_cons (s := { s with pos := s.pos + 1 + 1 + 1 }) hd4 he hr
  have e1 : u32 (b1 * 256) = b1 * 256 := by
    unfold u32; omega
  have l1 : Nat.lor (b1 * 256) b2 = b1 * 256 + b2 := lor_mul256_add _ _ h2
  have e2 : u32 ((b1 * 256 + b2) * 256) = (b1 * 256 + b2) * 256 := by
    unfold u32; omega
  have l2 : Nat.lor ((b1 * 256 + b2) * 256) b3 = (b1 * 256 + b2) * 256 + b3 :=
    lor_mul256_add _ _ h3
  have e3 : u32 (((b1 * 256 + b2) * 256 + b3) * 256) =
      ((b1 * 256 + b2) * 256 + b3) * 256 := by
    unfold u32; omega
  have l3 : Nat.lor (((b1 * 256 + b2) * 256 + b3) * 256) b4 =
      ((b1 * 256 + b2) * 256 + b3) * 256 + b4 := lor_mul256_add _ _ h4
  have hpos : s.pos + 1 + 1 + 1 + 1 = s.pos + 4 := by omega
  simp only [read4ByteUnsignedInt32, g1, g2, g3, g4]
  rw [e1, l1, e2, l2, e3, l3, hpos]

/-- The bytes of `encode4 n` are below 256 and recompose to `n`. -/
theorem encode4_recompose {n : Nat} (hn : n < 4294967296) :
    ((n / 16777216 % 256 * 256 + n / 65536 % 256) * 256 + n / 256 % 256) * 256 +
      n % 256 = n := by
  omega

/-- Reading an `encode4`-encoded value from the head of the remaining bytes. -/
theorem read4_encode4 {s : MStream} {n : Nat} {t : List Nat}
    (hd : s.bytes.drop s.pos = encode4 n ++ t)
    (he : s.eofFlag = false) (hr : s.errFlag = false) (hn : n < 4294967296) :
    read4ByteUnsignedInt32 s = (n, { s with pos := s.pos + 4 }) := by
  have hd' : s.bytes.drop s.pos =
      n / 16777216 % 256 :: n / 65536 % 256 :: n / 256 % 256 :: n % 256 :: t := by
    simpa [encode4] using hd
  have := read4_cons hd' he hr (Nat.mod_lt _ (by norm_num)) (Nat.mod_lt _ (by norm_num))
    (Nat.mod_lt _ (by norm_num)) (Nat.mod_lt _ (by norm_num))
  rwa [encode4_recompose hn] at this

/-- A clean in-bounds stream advances by 4 on a 32-bit read (value aside). -/
theorem read4_advance (bytes : List Nat) (pos : Nat) (h : pos + 4 ≤ bytes.length) :
    (read4ByteUnsignedInt32 ⟨bytes, pos, false, false⟩).2 = ⟨bytes, pos + 4, false, false⟩ := by
  have h1 : pos < bytes.length := by omega
  have h2 : pos + 1 < bytes.length := by omega
  have h3 : pos + 1 + 1 < bytes.length := by omega
  have h4 : pos + 1 + 1 + 1 < bytes.length := by omega
  simp only [read4ByteUnsignedInt32, mstreamGetc, Bool.or_self, Bool.false_eq_true,
    if_false, h1, h2, h3, h4, if_true, ite_true, ite_false]

/-! ## Claim C10: `m4aFileGetLength` divides with no guard -/

/-- C10: for every `M4AFile` with a non-zero timescale, `m4aFileGetLength`
returns `tv_sec = duration / timescale` and `tv_nsec = (duration - tv_sec *
timescale) * 10^9 / timescale`; with `timescale = 0` (a parse that never
set one) the division-by-zero branch of the total embedding is reached. -/
theorem m4aFileGetLength_unguarded_division (m : M4AFile) :
    (m.timescale ≠ 0 →
      m4aFileGetLength m = some (m.duration / m.timescale,
        (m.duration - m.duration / m.timescale * m.timescale) * 1000000000 / m.timescale))
    ∧ (m.timescale = 0 → m4aFileGetLength m = none) := by
  constructor
  · intro h
    simp only [m4aFileGetLength, if_neg h]
    rw [Nat.mul_comm 1000000000]
  · intro h
    simp [m4aFileGetLength, h]

/-- C10 witness: a 10-second file (timescale 44100, duration 441000). -/
theorem m4aFileGetLength_unguarded_division_witness :
    m4aFileGetLength
      { m4aFileOpenOn [] false with timescale := 44100, duration := 441000 } =
      some (10, 0) := by
  have h := (m4aFileGetLength_unguarded_division
    { m4aFileOpenOn [] false with timescale := 44100, duration := 441000 }).1
    (by decide)
  exact h.trans (by decide)

/-! ## Claim C2: `m4aFileGetNextSample` and short buffers -/

/-- C2 counterexample: a descriptor with `largestSampleSize = 1` and a
0-byte caller buffer - the claim demands `false`, but the call succeeds
(`m4aFileGetNextSample` receives only a `uint8_t *` and checks no length;
the C code would write the sample past the buffer's end). -/
theorem m4aFileGetNextSample_shortBuffer_counterexample :
    0 < shortBufferFile.largestSampleSize ∧
    (m4aFileGetNextSample shortBufferFile 0).1 = true := by decide

/-- C2 amended: `m4aFileGetNextSample` performs no buffer-size check - its
result is independent of the buffer capacity and it succeeds exactly when
the 4-byte size read succeeds and that many bytes are available on the data
stream (the header only documents that the caller must pass a buffer of at
least `largestSampleSize` bytes). -/
theorem m4aFileGetNextSample_no_buffer_check (m : M4AFile) (bufferCap : Nat) :
    (m4aFileGetNextSample m bufferCap).1 =
      (!didReadErrorOccur (read4ByteUnsignedInt32 m.sizeStream).2 &&
       (decide ((read4ByteUnsignedInt32 m.sizeStream).1 = 0) ||
        (!m.dataStream.eofFlag && !m.dataStream.errFlag &&
         decide ((read4ByteUnsignedInt32 m.sizeStream).1 ≤
           m.dataStream.bytes.length - m.dataStream.pos)))) := by
  unfold m4aFileGetNextSample m4aFileReadData mstreamRead
  by_cases h1 : didReadErrorOccur (read4ByteUnsignedInt32 m.sizeStream).2
  · simp [h1]
  · by_cases h2 : (read4ByteUnsignedInt32 m.sizeStream).1 = 0
    · simp [h1, h2]
    · by_cases h3 : m.dataStream.eofFlag
      · simp [h1, h2, h3, Ne.symm h2]
      · by_cases h4 : m.dataStream.errFlag
        · simp [h1, h2, h3, h4, Ne.symm h2]
        · by_cases h5 : (read4ByteUnsignedInt32 m.sizeStream).1 ≤
            m.dataStream.bytes.length - m.dataStream.pos
          · simp [h1, h2, h3, h4, h5, min_eq_left h5]
          · simp [h1, h2, h3, h4, h5]

/-! ## Claim C6: the audio frame format -/

/-- C6: every frame written by `raopClientSendAudioMessages` is the 16-byte
header followed by the sample payload: byte 0 is 0x24, byte 1 zero, bytes
2-3 the big-endian 16-bit value `sample_size + 12`, byte 4 0xF0, byte 5
0xFF, bytes 6-15 zero, and the frame length is `16 + sample_size` (here
`sample_size` is the payload length `m4aFileGetNextSample` reported). -/
theorem raopClientAudioMessage_format (payload : List Nat) :
    (raopClientAudioMessage payload.length payload).length = 16 + payload.length ∧
    (raopClientAudioMessage payload.length payload).getD 0 0 = 0x24 ∧
    (raopClientAudioMessage payload.length payload).getD 1 0 = 0 ∧
    256 * (raopClientAudioMessage payload.length payload).getD 2 0 +
      (raopClientAudioMessage payload.length payload).getD 3 0 =
      (payload.length + 12) % 65536 ∧
    (raopClientAudioMessage payload.length payload).getD 4 0 = 0xf0 ∧
    (raopClientAudioMessage payload.length payload).getD 5 0 = 0xff ∧
    ((raopClientAudioMessage payload.length payload).take 16).drop 6 =
      List.replicate 10 0 ∧
    (raopClientAudioMessage payload.length payload).drop 16 = payload := by
  have hdr : raopClientAudioMessage payload.length payload =
      [0x24, 0, (payload.length + 12) % 65536 / 256, (payload.length + 12) % 65536 % 256,
       0xf0, 0xff, 0, 0, 0, 0, 0, 0, 0, 0, 0, 0] ++ payload := rfl
  refine ⟨?_, rfl, rfl, ?_, rfl, rfl, rfl, ?_⟩
  · rw [hdr]
    simp
    omega
  · show 256 * ((payload.length + 12) % 65536 / 256) +
      (payload.length + 12) % 65536 % 256 = (payload.length + 12) % 65536
    omega
  · rw [hdr]
    simp

/-! ## Claim C5: `m4aFileSetSampleOffset` and the sample index -/

/-- The seek loop succeeds and advances the size cursor by `4 * k` whenever
the whole size table is within the file. -/
theorem sampleSeekLoop_ok : ∀ (k : Nat) (bytes : List Nat) (pos : Nat) (da : MStream),
    pos + 4 * k ≤ bytes.length →
    (sampleSeekLoop k ⟨bytes, pos, false, false⟩ da).1 = true ∧
    (sampleSeekLoop k ⟨bytes, pos, false, false⟩ da).2.1 =
      ⟨bytes, pos + 4 * k, false, false⟩ := by
  intro k
  induction k with
  | zero => intro bytes pos da _; simp [sampleSeekLoop]
  | succ n ih =>
    intro bytes pos da h
    have hadv := read4_advance bytes pos (by omega)
    have hrec := ih bytes (pos + 4)
      (mstreamSeekCur da (read4ByteUnsignedInt32 ⟨bytes, pos, false, false⟩).1)
      (by omega)
    have hpos : pos + 4 + 4 * n = pos + 4 * (n + 1) := by omega
    rw [hpos] at hrec
    simp only [sampleSeekLoop, hadv, didReadErrorOccur, Bool.or_self]
    simpa using hrec

/-- C5 counterexample: with timescale 2^31 and `t.seconds = 8192` the
mathematical quotient `timescale * seconds / 4096 = 2^32` is at least
`samplesCount = 1`, so the claim demands `false`; the `uint32_t` assignment
truncates the quotient to 0 and the call returns `true`. -/
theorem m4aFileSetSampleOffset_overflow_counterexample :
    overflowSeekFile.timescale * 8192 / 4096 ≥ overflowSeekFile.samplesCount ∧
    (m4aFileSetSampleOffset overflowSeekFile 8192).1 = true := by decide

/-- C5 amended: the comparison and the resulting index use the quotient
truncated to 32 bits, `u32 (timescale * t.seconds / 4096)`; below
`samplesCount` the call succeeds and `m4aFileGetCurrentSampleIndex` then
returns exactly that truncated quotient, at or above `samplesCount` it
fails.  The hypotheses say the parsed size table lies within the size
stream (true of every successfully parsed file) and fits in 32 bits. -/
theorem m4aFileSetSampleOffset_truncated_index (m : M4AFile) (tvSec : Nat)
    (hwf : m.sizeOffset + 4 * m.samplesCount ≤ m.sizeStream.bytes.length)
    (herr : m.sizeStream.errFlag = false)
    (hbound : m.sizeOffset + 4 * m.samplesCount < 4294967296) :
    (u32 (m.timescale * tvSec / 4096) < m.samplesCount →
      (m4aFileSetSampleOffset m tvSec).1 = true ∧
      m4aFileGetCurrentSampleIndex (m4aFileSetSampleOffset m tvSec).2 =
        u32 (m.timescale * tvSec / 4096))
    ∧ (m.samplesCount ≤ u32 (m.timescale * tvSec / 4096) →
      (m4aFileSetSampleOffset m tvSec).1 = false) := by
  constructor
  · intro hlt
    have hsz : mstreamSeekSet m.sizeStream m.sizeOffset =
        (⟨m.sizeStream.bytes, m.sizeOffset, false, false⟩ : MStream) := by
      simp [mstreamSeekSet, herr]
    have hloop := sampleSeekLoop_ok (u32 (m.timescale * tvSec / 4096))
      m.sizeStream.bytes m.sizeOffset (mstreamSeekSet m.dataStream m.dataOffset)
      (by omega)
    constructor
    · simp only [m4aFileSetSampleOffset, if_neg (by omega : ¬ u32 (m.timescale * tvSec / 4096) ≥ m.samplesCount)]
      rw [hsz]
      exact hloop.1
    · simp only [m4aFileSetSampleOffset, if_neg (by omega : ¬ u32 (m.timescale * tvSec / 4096) ≥ m.samplesCount)]
      rw [hsz]
      simp only [m4aFileGetCurrentSampleIndex, hloop.2, mstreamTell]
      show usub32 (m.sizeOffset + 4 * u32 (m.timescale * tvSec / 4096)) m.sizeOffset / 4 =
        u32 (m.timescale * tvSec / 4096)
      unfold usub32 u32 at *
      omega
  · intro hge
    simp only [m4aFileSetSampleOffset, if_pos (by omega : u32 (m.timescale * tvSec / 4096) ≥ m.samplesCount)]

/-- C5 witness: on `seekDemoFile` (timescale 4096, two samples), one second
seeks to sample index 1 and succeeds. -/
theorem m4aFileSetSampleOffset_truncated_index_witness :
    u32 (seekDemoFile.timescale * 1 / 4096) < seekDemoFile.samplesCount ∧
    (m4aFileSetSampleOffset seekDemoFile 1).1 = true ∧
    m4aFileGetCurrentSampleIndex (m4aFileSetSampleOffset seekDemoFile 1).2 =
      u32 (seekDemoFile.timescale * 1 / 4096) :=
  ⟨by decide,
   (m4aFileSetSampleOffset_truncated_index seekDemoFile 1
     (by decide) (by decide) (by decide)).1 (by decide)⟩

/-! ## Claim C3: version-1 duration handling -/

/-- C3 counterexample: a file whose single version-1 `mdhd` box has
duration upper half 1 (neither 0 nor 0xFFFFFFFF).  The claim demands final
status `Error`; in fact `m4aFileReadDuration` fails without touching the
status, `mp4BoxParse` force-skips the box (from its 8-byte header count)
with only `ParsedWithWarnings`, and the EOF "little hack" at the next
top-level box read resets the status, so the parse returns `true` with
status `OK`. -/
theorem mdhdV1_bad_upper_counterexample :
    (m4aFileParse 20 (m4aFileOpenOn (mdhdV1File 1 256) false)).1 = true ∧
    (m4aFileParse 20 (m4aFileOpenOn (mdhdV1File 1 256) false)).2.status =
      M4AFileStatus.ok := by decide

/-- Reading an `encode4`-encoded 32-bit field through
`m4aFileReadUnsignedLong` on a clean stream. -/
theorem m4aFileReadUnsignedLong_encode4 (m : M4AFile) (n : Nat) (t : List Nat)
    (hd : m.dataStream.bytes.drop m.dataStream.pos = encode4 n ++ t)
    (he : m.dataStream.eofFlag = false) (hr : m.dataStream.errFlag = false)
    (hn : n < 4294967296) :
    m4aFileReadUnsignedLong m = (true, n,
      { m with dataStream :=
          ⟨m.dataStream.bytes, m.dataStream.pos + 4, false, false⟩ }) := by
  have hds := read4_encode4 hd he hr hn
  simp only [m4aFileReadUnsignedLong, hds]
  simp [he, hr]

/-- C3 amended: reading a version-1 duration whose upper half is 0 succeeds
with the lower half as the duration value; upper and lower halves all ones
are accepted as "unknown" (the stored duration is not modified); any other
upper half makes `m4aFileReadDuration` fail - but it leaves the status
unchanged rather than setting `Error`, and the surrounding parse continues
by force-skipping the box (see the counterexample: the file even ends with
status `OK`). -/
theorem m4aFileReadDuration_version1_cases (m : M4AFile) (upper lower : Nat)
    (t : List Nat)
    (hd : m.dataStream.bytes.drop m.dataStream.pos = encode4 upper ++ encode4 lower ++ t)
    (he : m.dataStream.eofFlag = false) (hr : m.dataStream.errFlag = false)
    (hu : upper < 4294967296) (hl : lower < 4294967296) :
    (upper = 0 →
      (m4aFileReadDuration m 1).1 = true ∧ (m4aFileReadDuration m 1).2.1 = lower)
    ∧ (upper = 4294967295 → lower = 4294967295 →
      (m4aFileReadDuration m 1).1 = true ∧
      (m4aFileReadDuration m 1).2.2.duration = m.duration)
    ∧ (upper ≠ 0 → upper ≠ 4294967295 →
      (m4aFileReadDuration m 1).1 = false ∧
      (m4aFileReadDuration m 1).2.2.status = m.status) := by
  have hread1 := m4aFileReadUnsignedLong_encode4 m upper (encode4 lower ++ t)
    (by rw [hd, List.append_assoc]) he hr hu
  have hd2 : m.dataStream.bytes.drop (m.dataStream.pos + 4) = encode4 lower ++ t := by
    rw [← List.drop_drop 4 m.dataStream.pos m.dataStream.bytes, hd,
        List.append_assoc,
        show (4 : Nat) = (encode4 upper).length by simp [encode4],
        List.drop_left]
  have hread2 := m4aFileReadUnsignedLong_encode4
    ({ m with dataStream := ⟨m.dataStream.bytes, m.dataStream.pos + 4, false, false⟩ })
    lower t (by simpa using hd2) rfl rfl hl
  simp only at hread2
  refine ⟨?_, ?_, ?_⟩
  · intro h0
    subst h0
    simp [m4aFileReadDuration, hread1, hread2]
  · intro hup hlo
    subst hup
    subst hlo
    simp [m4aFileReadDuration, hread1, hread2, m4aFileSetDuration, m4aFileSetTimeValue]
  · intro hup hne
    simp [m4aFileReadDuration, hread1, hup, hne]

/-- C3 witness: upper half 5 - the read fails and the status is unchanged
(the amended claim's third case at a concrete input). -/
theorem m4aFileReadDuration_version1_cases_witness :
    (m4aFileReadDuration (m4aFileOpenOn (encode4 5 ++ encode4 7) false) 1).1 = false ∧
    (m4aFileReadDuration (m4aFileOpenOn (encode4 5 ++ encode4 7) false) 1).2.2.status =
      (m4aFileOpenOn (encode4 5 ++ encode4 7) false).status :=
  (m4aFileReadDuration_version1_cases (m4aFileOpenOn (encode4 5 ++ encode4 7) false)
    5 7 [] (by decide) (by decide) (by decide) (by decide) (by decide)).2.2
    (by decide) (by decide)

/-! ## Claim C4: exact box-size advancement -/

/-- C4 counterexample: on the version-1 `mdhd` box of total size 40 whose
duration upper half is 1, the handler consumes 28 body bytes but reports 0,
so the force-skip (computed from the reported count) advances the stream to
offset 68 - more than the declared 40 bytes - while the status is only
`ParsedWithWarnings`, not `Error`. -/
theorem mp4BoxParse_overshoot_counterexample :
    (mp4BoxParse 10 (m4aFileOpenOn (mdhdV1File 1 256) false)).2.dataStream.pos = 68 ∧
    (mp4BoxParse 10 (m4aFileOpenOn (mdhdV1File 1 256) false)).2.dataStream.pos ≠ 40 ∧
    (mp4BoxParse 10 (m4aFileOpenOn (mdhdV1File 1 256) false)).2.status =
      M4AFileStatus.parsedWithWarnings := by decide

/-- C4 amended: the force-skip is computed from the handler's reported byte
count, not the stream position, so exact `box_size` advancement holds only
when the two agree - as for every unknown box type, force-skipped from the
8-byte header (with `ParsedWithWarnings`); a known handler that fails after
consuming bytes reports 0 and the skip overshoots (see the counterexample). -/
theorem mp4BoxParse_unknownBox_exact_skip (m : M4AFile) (boxType boxSize : Nat)
    (t : List Nat) (fuel : Nat)
    (hd : m.dataStream.bytes.drop m.dataStream.pos =
      encode4 boxSize ++ encode4 boxType ++ t)
    (he : m.dataStream.eofFlag = false) (hr : m.dataStream.errFlag = false)
    (hfind : findBoxParser boxType = none) (_tZero : boxType ≠ 0)
    (hbt : boxType < 4294967296) (hs8 : 8 < boxSize) (hs : boxSize < 4294967296) :
    (mp4BoxParse (fuel + 1) m).1 = boxSize ∧
    (mp4BoxParse (fuel + 1) m).2.dataStream.pos = m.dataStream.pos + boxSize ∧
    (mp4BoxParse (fuel + 1) m).2.status = M4AFileStatus.parsedWithWarnings := by
  have hread1 := m4aFileReadUnsignedLong_encode4 m boxSize (encode4 boxType ++ t)
    (by rw [hd, List.append_assoc]) he hr hs
  have hd2 : m.dataStream.bytes.drop (m.dataStream.pos + 4) = encode4 boxType ++ t := by
    rw [← List.drop_drop 4 m.dataStream.pos m.dataStream.bytes, hd,
        List.append_assoc,
        show (4 : Nat) = (encode4 boxSize).length by simp [encode4],
        List.drop_left]
  have hread2 := m4aFileReadUnsignedLong_encode4
    ({ m with dataStream := ⟨m.dataStream.bytes, m.dataStream.pos + 4, false, false⟩ })
    boxType t (by simpa using hd2) rfl rfl hbt
  simp only at hread2
  have husub : usub32 boxSize 8 = boxSize - 8 := by
    unfold usub32 u32
    omega
  refine ⟨?_, ?_, ?_⟩ <;>
  · simp only [mp4BoxParse, mp4BoxParseStep, hread1, hread2, hfind, mp4BoxParseFinish,
      m4aFileSkipBytes, mstreamSeekCur, husub]
    simp [hs8]
    try omega

/-- C4 witness: an unknown box type (`0x12345678`) of declared size 20 is
skipped exactly, with `ParsedWithWarnings`. -/
theorem mp4BoxParse_unknownBox_exact_skip_witness :
    findBoxParser 0x12345678 = none ∧
    ((mp4BoxParse (9 + 1) (m4aFileOpenOn
        (encode4 20 ++ encode4 0x12345678 ++ List.replicate 12 7) false)).1 = 20 ∧
     (mp4BoxParse (9 + 1) (m4aFileOpenOn
        (encode4 20 ++ encode4 0x12345678 ++ List.replicate 12 7) false)).2.dataStream.pos =
       (m4aFileOpenOn (encode4 20 ++ encode4 0x12345678 ++ List.replicate 12 7)
         false).dataStream.pos + 20 ∧
     (mp4BoxParse (9 + 1) (m4aFileOpenOn
        (encode4 20 ++ encode4 0x12345678 ++ List.replicate 12 7) false)).2.status =
       M4AFileStatus.parsedWithWarnings) :=
  ⟨by decide,
   mp4BoxParse_unknownBox_exact_skip
     (m4aFileOpenOn (encode4 20 ++ encode4 0x12345678 ++ List.replicate 12 7) false)
     0x12345678 20 (List.replicate 12 7) 9
     (by decide) (by decide) (by decide) (by decide) (by decide) (by decide)
     (by decide) (by decide)⟩

/-- `formatFixed1` at an integer value. -/
theorem formatFixed1_intCast (k : Int) :
    formatFixed1 (k : ℚ) =
      (if k < 0 then "-" else "") ++ toString ((10 * k).natAbs / 10) ++ "." ++
      toString ((10 * k).natAbs % 10) := by
  have hcast : (10 : ℚ) * (k : ℚ) = ((10 * k : ℤ) : ℚ) := by push_cast; ring
  have hn : (2 * ((10 : ℚ) * (k : ℚ)).num + (((10 : ℚ) * (k : ℚ)).den : Int)).fdiv
      (2 * (((10 : ℚ) * (k : ℚ)).den : Int)) = 10 * k := by
    rw [hcast, Rat.num_intCast, Rat.den_intCast]
    rw [Int.fdiv_eq_ediv _ (by omega)]
    omega
  show (if (2 * ((10 : ℚ) * (k : ℚ)).num + (((10 : ℚ) * (k : ℚ)).den : Int)).fdiv
      (2 * (((10 : ℚ) * (k : ℚ)).den : Int)) < 0 then "-" else "") ++ _ ++ "." ++ _ = _
  rw [hn, show (if 10 * k < 0 then "-" else "") = (if k < 0 then "-" else "") from
    if_congr (by omega) rfl rfl]

/-! ## Claim C8: `raopClientSetVolume` clamping and body -/

/-- C8: the volume is clamped into [0, 30] (anything below 0.01 becomes
muted), and the `SET_PARAMETER` body is `volume: <x>\r\n` with `x = -144.0`
for muted input and `x = v - 30.0` otherwise; in particular v = 0, 20 and
42 transmit `-144.0`, `-10.0` and (clamped) `0.0`.  The C `float`
arithmetic is exact on these values; the embedding uses `ℚ`. -/
theorem raopClientSetVolume_clamp_and_body :
    (∀ v : ℚ, 0 ≤ raopClientClampVolume v ∧ raopClientClampVolume v ≤ 30)
    ∧ (∀ v : ℚ, v < 1/100 → raopClientSetVolumeBody v = "volume: -144.0\r\n")
    ∧ (∀ v : ℚ, 1/100 ≤ v → v ≤ 30 →
        raopClientVolumeInternal (raopClientClampVolume v) = v - 30)
    ∧ raopClientSetVolumeBody 0 = "volume: -144.0\r\n"
    ∧ raopClientSetVolumeBody 20 = "volume: -10.0\r\n"
    ∧ raopClientSetVolumeBody 42 = "volume: 0.0\r\n" := by
  have hclampeq : ∀ v : ℚ, raopClientClampVolume v =
      if (if v < 1/100 then (0 : ℚ) else v) > 30 then 30
      else if v < 1/100 then 0 else v := fun _ => rfl
  have hmuted : ∀ v : ℚ, v < 1/100 → raopClientSetVolumeBody v = "volume: -144.0\r\n" := by
    intro v hv
    have hclamp : raopClientClampVolume v = 0 := by
      rw [hclampeq, if_pos hv]
      norm_num
    rw [raopClientSetVolumeBody, hclamp, raopClientSetVolumeContent,
        show raopClientVolumeInternal 0 = -144 from by
          rw [raopClientVolumeInternal, if_neg (by norm_num : ¬ (0 : ℚ) ≥ 1/100)],
        show (-144 : ℚ) = ((-144 : ℤ) : ℚ) from by norm_num,
        formatFixed1_intCast]
    decide
  refine ⟨?_, hmuted, ?_, hmuted 0 (by norm_num), ?_, ?_⟩
  · intro v
    rw [hclampeq]
    split_ifs <;> constructor <;> linarith
  · intro v hv1 hv2
    have hclamp : raopClientClampVolume v = v := by
      rw [hclampeq, if_neg (by linarith : ¬ v < 1/100),
        if_neg (by linarith : ¬ v > 30)]
    rw [hclamp, raopClientVolumeInternal, if_pos hv1]
    ring
  · rw [raopClientSetVolumeBody,
        show raopClientClampVolume 20 = 20 from by rw [hclampeq]; norm_num,
        raopClientSetVolumeContent,
        show raopClientVolumeInternal 20 = ((-10 : ℤ) : ℚ) from by
          rw [raopClientVolumeInternal, if_pos (by norm_num : (20 : ℚ) ≥ 1/100)]; norm_num,
        formatFixed1_intCast]
    decide
  · rw [raopClientSetVolumeBody,
        show raopClientClampVolume 42 = 30 from by rw [hclampeq]; norm_num,
        raopClientSetVolumeContent,
        show raopClientVolumeInternal 30 = ((0 : ℤ) : ℚ) from by
          rw [raopClientVolumeInternal, if_pos (by norm_num : (30 : ℚ) ≥ 1/100)]; norm_num,
        formatFixed1_intCast]
    decide

/-- C8 witness: volume 20 maps to the internal value -10. -/
theorem raopClientSetVolume_clamp_and_body_witness :
    1/100 ≤ (20 : ℚ) ∧ (20 : ℚ) ≤ 30 ∧
    raopClientVolumeInternal (raopClientClampVolume 20) = 20 - 30 :=
  ⟨by norm_num, by norm_num,
   raopClientSetVolume_clamp_and_body.2.2.1 20 (by norm_num) (by norm_num)⟩

/-! ## Claim C9: the digest Authorization header value -/

/-- The hex rendering of `n` bytes has `2 * n` characters. -/
theorem bytesHexUpper_length (bs : List Nat) :
    (bytesHexUpper bs).length = 2 * bs.length := by
  induction bs with
  | nil => rfl
  | cons b t ih =>
    simp only [bytesHexUpper, List.map_cons, List.flatten_cons, List.length_append,
      List.length_cons] at *
    simp [byteHexUpper, ih]
    omega

set_option maxRecDepth 4096 in
/-- C9 counterexample: with a 20-character realm, a 41-character nonce and
a 54-character URL (all within the sizes the client accepts), the assembled
digest header is 213 characters but `snprintf`'s 200-byte buffer truncates
it to 199, so the produced value is not the claimed full header (shown for
the conformant 16-byte MD5 placeholder `md5Zero`; the truncation is
independent of the digest bytes). -/
theorem rtspAuthValue_truncation_counterexample :
    rtspAuthValue md5Zero ("ANNOUNCE".data) longUrl longRealm longNonce ≠
    specDigestHeaderValue md5Zero ("ANNOUNCE".data) longUrl longRealm longNonce := by
  decide

/-- C9 amended: whenever the assembled value fits the 200-byte buffer
(realm, nonce and URL lengths summing to at most 102; the fixed text plus
the 32 response digits occupy 97), the produced header value is exactly the
RFC 2617 digest header of §4.5, with the fixed `iTunes`/`geheim`
credentials; longer combinations are truncated to 199 characters. -/
theorem rtspAuthValue_digest_format (md5 : List Char → List Nat)
    (hm : Md5Model md5) (method : RTSPRequestMethod) (url realm nonce : List Char)
    (hlen : realm.length + nonce.length + url.length ≤ 102) :
    rtspAuthValue md5 (rtspRequestMethodName method).data url realm nonce =
      specDigestHeaderValue md5 (rtspRequestMethodName method).data url realm nonce := by
  have h32 : ∀ x : List Char, (bytesHexUpper (md5 x)).length = 32 := by
    intro x
    rw [bytesHexUpper_length, (hm x).1]
  unfold rtspAuthValue specDigestHeaderValue
  dsimp only
  have t1 : (bytesHexUpper (md5 ("iTunes:".data ++ realm ++ ":geheim".data))).take 32 =
      bytesHexUpper (md5 ("iTunes:".data ++ realm ++ ":geheim".data)) :=
    List.take_of_length_le (by rw [h32])
  have t2 : (bytesHexUpper (md5 ((rtspRequestMethodName method).data ++ ":".data ++ url))).take 32 =
      bytesHexUpper (md5 ((rtspRequestMethodName method).data ++ ":".data ++ url)) :=
    List.take_of_length_le (by rw [h32])
  rw [t1, t2]
  rw [List.take_of_length_le (by rw [h32] : (bytesHexUpper (md5
    (bytesHexUpper (md5 ("iTunes:".data ++ realm ++ ":geheim".data)) ++ ":".data ++ nonce ++
     ":".data ++
     bytesHexUpper (md5 ((rtspRequestMethodName method).data ++ ":".data ++ url))))).length ≤ 32)]
  apply List.take_of_length_le
  simp only [List.length_append, h32, List.length_cons, List.length_nil]
  omega

/-- The placeholder MD5 is a conformant collaborator. -/
theorem md5Zero_model : Md5Model md5Zero := by
  intro s
  refine ⟨by simp [md5Zero], ?_⟩
  intro b hb
  have : b = 0 := List.eq_of_mem_replicate hb
  omega

/-- C9 witness: short values produce the untruncated digest header. -/
theorem rtspAuthValue_digest_format_witness :
    Md5Model md5Zero ∧
    rtspAuthValue md5Zero (rtspRequestMethodName RTSPRequestMethod.ANNOUNCE).data
      "rtsp://10.0.0.2/1".data "AppleTV".data "abcdef".data =
    specDigestHeaderValue md5Zero
      (rtspRequestMethodName RTSPRequestMethod.ANNOUNCE).data
      "rtsp://10.0.0.2/1".data "AppleTV".data "abcdef".data :=
  ⟨md5Zero_model,
   rtspAuthValue_digest_format md5Zero md5Zero_model
     RTSPRequestMethod.ANNOUNCE "rtsp://10.0.0.2/1".data "AppleTV".data
     "abcdef".data (by decide)⟩

/-! ## Claim C1: the 401 authentication retry of `rtspClientSendCommand` -/

/-- C1 counterexample: both responses are `401 Unauthorized`, yet
`rtspClientSendCommand` returns `true` - `rtspClientReceiveResponse`
treats 401 as a non-fatal status (it only sets `needAuthentication`), and
after the single retry the result is never re-examined. -/
theorem rtspClientSendCommand_second401_counterexample :
    resp401a.status = 401 ∧ resp401b.status = 401 ∧
    (rtspClientSendCommand md5Zero (rtspClientOpenConnectionState exampleUrl)
      RTSPRequestMethod.OPTIONS [resp401a, resp401b]).ok = true := by decide

/-- C1 amended: on a first 401 the request is rebuilt with an
`Authorization` header and re-sent exactly once (two requests total, the
first without and the second with the header), but a second 401 is not
fatal: for every method except `SETUP` the command still returns `true`,
with `needAuthentication` left set.  (`SETUP` alone returns `false`, and
only because the 401 response carries no `Session` field.) -/
theorem rtspClientSendCommand_auth_retry (method : RTSPRequestMethod)
    (hm : method ≠ RTSPRequestMethod.SETUP) :
    (rtspClientSendCommand md5Zero (rtspClientOpenConnectionState exampleUrl)
      method [resp401a, resp401b]).ok = true ∧
    (rtspClientSendCommand md5Zero (rtspClientOpenConnectionState exampleUrl)
      method [resp401a, resp401b]).requests.length = 2 ∧
    requestHasAuthorization
      ((rtspClientSendCommand md5Zero (rtspClientOpenConnectionState exampleUrl)
        method [resp401a, resp401b]).requests.getD 0 default) = false ∧
    requestHasAuthorization
      ((rtspClientSendCommand md5Zero (rtspClientOpenConnectionState exampleUrl)
        method [resp401a, resp401b]).requests.getD 1 default) = true ∧
    (rtspClientSendCommand md5Zero (rtspClientOpenConnectionState exampleUrl)
      method [resp401a, resp401b]).state.needAuthentication = true := by
  cases method
  case SETUP => exact absurd rfl hm
  all_goals decide

/-- C1 witness: the amended behavior at the `OPTIONS` method. -/
theorem rtspClientSendCommand_auth_retry_witness :
    RTSPRequestMethod.OPTIONS ≠ RTSPRequestMethod.SETUP ∧
    ((rtspClientSendCommand md5Zero (rtspClientOpenConnectionState exampleUrl)
      RTSPRequestMethod.OPTIONS [resp401a, resp401b]).requests.length = 2 ∧
    requestHasAuthorization
      ((rtspClientSendCommand md5Zero (rtspClientOpenConnectionState exampleUrl)
        RTSPRequestMethod.OPTIONS [resp401a, resp401b]).requests.getD 1 default) = true) :=
  ⟨by decide,
   (rtspClientSendCommand_auth_retry RTSPRequestMethod.OPTIONS (by decide)).2.1,
   (rtspClientSendCommand_auth_retry RTSPRequestMethod.OPTIONS (by decide)).2.2.2.1⟩

/-! ## Claim C7: strictly increasing CSeq -/

theorem u32_u32_add (a b : Nat) : u32 (u32 a + b) = u32 (a + b) := by
  unfold u32
  omega

theorem u32_lt (a : Nat) : u32 a < 4294967296 := by
  unfold u32
  omega

/-- The `CSeq` value of a request whose header list starts with the `CSeq`
field (as every supplier-built request does). -/
theorem requestCSeq_cons (method : RTSPRequestMethod) (x : String)
    (rest : List (String × String)) :
    requestCSeq ⟨method, ("CSeq", x) :: rest⟩ = some x := by
  unfold requestCSeq
  rw [List.find?_cons_of_pos _ (by rfl)]
  rfl

/-- `rtspClientAddAuthenticationFields` never touches the sequence number. -/
theorem rtspClientAddAuthenticationFields_seq (md5 : List Char → List Nat)
    (st : RTSPClientState) (method : RTSPRequestMethod)
    (p : RTSPClientState × (String × String))
    (h : rtspClientAddAuthenticationFields md5 st method = some p) :
    p.1.sequenceNumber = st.sequenceNumber := by
  unfold rtspClientAddAuthenticationFields at h
  split at h
  · split at h
    · exact absurd h (by simp)
    · split at h
      · exact absurd h (by simp)
      · split at h
        · simp only [Option.some.injEq] at h
          rw [← h]
        · exact absurd h (by simp)
  · simp only [Option.some.injEq] at h
    rw [← h]

/-- Every request built by `rtspClientSendRequest` carries the incremented
sequence number as its (unique, leading) `CSeq` header, and the state's
sequence number is that same value. -/
theorem rtspClientSendRequest_spec (md5 : List Char → List Nat)
    (st : RTSPClientState) (method : RTSPRequestMethod) :
    requestCSeq (rtspClientSendRequest md5 st method).2 =
      some (toString (u32 (st.sequenceNumber + 1))) ∧
    (rtspClientSendRequest md5 st method).1.sequenceNumber =
      u32 (st.sequenceNumber + 1) := by
  unfold rtspClientSendRequest rtspClientAddHeaderFields
    rtspClientClientGeneralHeaderFieldsSupplier
  dsimp only
  split
  · split
    case h_1 p heq =>
      have hseq := rtspClientAddAuthenticationFields_seq md5 _ method p heq
      simp only at hseq
      constructor
      · cases method <;> simp <;> exact requestCSeq_cons _ _ _
      · simpa using hseq
    case h_2 =>
      constructor
      · cases method <;> simp <;> exact requestCSeq_cons _ _ _
      · rfl
  · constructor
    · cases method <;> simp <;> exact requestCSeq_cons _ _ _
    · rfl

/-- `rtspClientReceiveResponse` never changes the sequence number. -/
theorem rtspClientReceiveResponse_seq (st : RTSPClientState)
    (resp : RTSPResponseData) :
    (rtspClientReceiveResponse st resp).2.sequenceNumber = st.sequenceNumber := by
  unfold rtspClientReceiveResponse
  dsimp only
  split
  · split
    · rfl
    · split
      · rfl
      · rfl
  · rfl

/-- The final response checks of a command return the request list
unchanged and keep the sequence number. -/
theorem rtspClientSendCommandFinish_spec (method : RTSPRequestMethod)
    (st3 : RTSPClientState) (reqs : List SentRequest) :
    (rtspClientSendCommandFinish method st3 reqs).requests = reqs ∧
    (rtspClientSendCommandFinish method st3 reqs).state.sequenceNumber =
      st3.sequenceNumber := by
  unfold rtspClientSendCommandFinish
  repeat' split
  all_goals exact ⟨rfl, rfl⟩

/-- Each run of `rtspClientSendCommand` sends requests whose `CSeq` values
are the consecutive (wrapped) successors of the starting sequence number,
and leaves the state's sequence number at the last value used. -/
theorem rtspClientSendCommand_cseq (md5 : List Char → List Nat)
    (st : RTSPClientState) (method : RTSPRequestMethod)
    (resps : List RTSPResponseData) :
    (rtspClientSendCommand md5 st method resps).requests.map requestCSeq =
      (List.range (rtspClientSendCommand md5 st method resps).requests.length).map
        (fun j => some (toString (u32 (st.sequenceNumber + j + 1)))) ∧
    (rtspClientSendCommand md5 st method resps).state.sequenceNumber =
      u32 (st.sequenceNumber +
        (rtspClientSendCommand md5 st method resps).requests.length) := by
  obtain ⟨hc1, hs1⟩ := rtspClientSendRequest_spec md5 st method
  unfold rtspClientSendCommand
  cases resps with
  | nil =>
    dsimp only
    exact ⟨by simp [List.range_succ, hc1], by simpa using hs1⟩
  | cons r1 rest =>
    have hr1 : (rtspClientReceiveResponse
        (rtspClientSendRequest md5 st method).1 r1).2.sequenceNumber =
        u32 (st.sequenceNumber + 1) := by
      rw [rtspClientReceiveResponse_seq]; exact hs1
    obtain ⟨hc2, hs2⟩ := rtspClientSendRequest_spec md5
      (rtspClientReceiveResponse (rtspClientSendRequest md5 st method).1 r1).2
      method
    rw [hr1, u32_u32_add] at hc2 hs2
    dsimp only
    by_cases hok :
        (rtspClientReceiveResponse (rtspClientSendRequest md5 st method).1 r1).1 = true
    · rw [hok]
      simp only [Bool.not_true, Bool.false_eq_true, if_false]
      by_cases hna :
          (rtspClientReceiveResponse
            (rtspClientSendRequest md5 st method).1 r1).2.needAuthentication = true
      · rw [if_pos hna]
        cases rest with
        | nil =>
          dsimp only
          exact ⟨by simp [List.range_succ, hc1, hc2], by simpa using hs2⟩
        | cons r2 rest2 =>
          dsimp only
          have hr2 : (rtspClientReceiveResponse
              (rtspClientSendRequest md5
                (rtspClientReceiveResponse
                  (rtspClientSendRequest md5 st method).1 r1).2 method).1
              r2).2.sequenceNumber = u32 (st.sequenceNumber + 1 + 1) := by
            rw [rtspClientReceiveResponse_seq]; exact hs2
          by_cases hok2 : (rtspClientReceiveResponse
              (rtspClientSendRequest md5
                (rtspClientReceiveResponse
                  (rtspClientSendRequest md5 st method).1 r1).2 method).1
              r2).1 = true
          · rw [hok2]
            simp only [Bool.not_true, Bool.false_eq_true, if_false]
            obtain ⟨hf1, hf2⟩ := rtspClientSendCommandFinish_spec method
              (rtspClientReceiveResponse
                (rtspClientSendRequest md5
                  (rtspClientReceiveResponse
                    (rtspClientSendRequest md5 st method).1 r1).2 method).1
                r2).2
              [(rtspClientSendRequest md5 st method).2,
               (rtspClientSendRequest md5
                 (rtspClientReceiveResponse
                   (rtspClientSendRequest md5 st method).1 r1).2 method).2]
            rw [hf1, hf2]
            exact ⟨by simp [List.range_succ, hc1, hc2], by simpa using hr2⟩
          · rw [Bool.not_eq_true] at hok2
            rw [hok2]
            simp only [Bool.not_false, eq_self_iff_true, if_true]
            exact ⟨by simp [List.range_succ, hc1, hc2], by simpa using hr2⟩
      · rw [if_neg hna]
        simp only [Bool.not_true, Bool.false_eq_true, if_false]
        obtain ⟨hf1, hf2⟩ := rtspClientSendCommandFinish_spec method
          (rtspClientReceiveResponse (rtspClientSendRequest md5 st method).1 r1).2
          [(rtspClientSendRequest md5 st method).2]
        rw [hf1, hf2]
        exact ⟨by simp [List.range_succ, hc1], by simpa using hr1⟩
    · rw [Bool.not_eq_true] at hok
      rw [hok]
      simp only [Bool.not_false, eq_self_iff_true, if_true]
      exact ⟨by simp [List.range_succ, hc1], by simpa using hr1⟩

theorem u32_shift (x a j : Nat) :
    u32 (u32 (x + a) + j + 1) = u32 (x + (a + j) + 1) := by
  unfold u32
  omega

/-- Across a whole conversation the requests sent on the wire carry the
consecutive (wrapped) successors of the starting sequence number as their
`CSeq` values. -/
theorem rtspClientRunCommands_cseq_aux (md5 : List Char → List Nat)
    (cmds : List (RTSPRequestMethod × List RTSPResponseData)) :
    ∀ st : RTSPClientState, st.sequenceNumber < 4294967296 →
    (rtspClientRunCommands md5 st cmds).2.map requestCSeq =
      (List.range (rtspClientRunCommands md5 st cmds).2.length).map
        (fun j => some (toString (u32 (st.sequenceNumber + j + 1)))) ∧
    (rtspClientRunCommands md5 st cmds).1.sequenceNumber =
      u32 (st.sequenceNumber + (rtspClientRunCommands md5 st cmds).2.length) := by
  induction cmds with
  | nil =>
    intro st hlt
    refine ⟨rfl, ?_⟩
    unfold rtspClientRunCommands u32
    dsimp only
    simp only [List.length_nil]
    omega
  | cons c rest ih =>
    intro st hlt
    obtain ⟨hm, hs⟩ := rtspClientSendCommand_cseq md5 st c.1 c.2
    obtain ⟨ihm, ihs⟩ := ih (rtspClientSendCommand md5 st c.1 c.2).state
      (by rw [hs]; exact u32_lt _)
    unfold rtspClientRunCommands
    dsimp only
    constructor
    · rw [List.map_append, hm, ihm, hs]
      rw [List.length_append, List.range_add, List.map_append, List.map_map]
      congr 1
      apply List.map_congr_left
      intro j _
      dsimp only [Function.comp]
      rw [u32_shift]
    · rw [ihs, hs, u32_u32_add, List.length_append, Nat.add_assoc]

/-- C7: on a session opened with sequence number 0, the `i`-th request
sent on the wire (counting from 0, over all commands of the conversation,
the authentication retransmission included) carries `CSeq: i+1` - the
first request uses 1 and every subsequent request, the retransmission with
a fresh value included, increments it by exactly 1 (as long as the counter
has not wrapped around 2^32). -/
theorem rtspClientRunCommands_cseq (md5 : List Char → List Nat)
    (url : String) (cmds : List (RTSPRequestMethod × List RTSPResponseData))
    (i : Nat)
    (hi : i < (rtspClientRunCommands md5
      (rtspClientOpenConnectionState url) cmds).2.length)
    (hsmall : i + 1 < 4294967296) :
    requestCSeq ((rtspClientRunCommands md5
        (rtspClientOpenConnectionState url) cmds).2.getD i default) =
      some (toString (i + 1)) := by
  obtain ⟨hm, _⟩ := rtspClientRunCommands_cseq_aux md5 cmds
    (rtspClientOpenConnectionState url)
    (by unfold rtspClientOpenConnectionState; dsimp only; omega)
  have h3 := congrArg (fun l => l[i]?) hm
  dsimp only at h3
  rw [List.getElem?_map, List.getElem?_map, List.getElem?_eq_getElem hi,
    List.getElem?_range (by simpa using hi)] at h3
  simp only [Option.map_some', Option.some.injEq] at h3
  rw [List.getD_eq_getElem _ _ hi, h3]
  have : u32 ((rtspClientOpenConnectionState url).sequenceNumber + i + 1) = i + 1 := by
    unfold u32 rtspClientOpenConnectionState
    dsimp only
    omega
  rw [this]

theorem rtspClientRunCommands_cseq_witness :
    (2 < (rtspClientRunCommands md5Zero (rtspClientOpenConnectionState exampleUrl)
        [(RTSPRequestMethod.OPTIONS, [resp401a, resp401b]),
         (RTSPRequestMethod.ANNOUNCE, [resp200 3])]).2.length ∧
     2 + 1 < 4294967296) ∧
    requestCSeq ((rtspClientRunCommands md5Zero
        (rtspClientOpenConnectionState exampleUrl)
        [(RTSPRequestMethod.OPTIONS, [resp401a, resp401b]),
         (RTSPRequestMethod.ANNOUNCE, [resp200 3])]).2.getD 2 default) =
      some (toString (2 + 1)) :=
  ⟨⟨by decide, by decide⟩,
   rtspClientRunCommands_cseq md5Zero exampleUrl
     [(RTSPRequestMethod.OPTIONS, [resp401a, resp401b]),
      (RTSPRequestMethod.ANNOUNCE, [resp200 3])] 2 (by decide) (by decide)⟩

end LightPlay
